import Mathlib

/-!
Verification development for sync_garmin.py (HEWS Garmin sync script).

The script is embedded shallowly:
* JSON-like Python values are `JVal` (floating point numbers are modelled
  exactly as rationals; binary floating point rounding is abstracted away).
* Python dictionaries are association lists `List (String × JVal)`; `dictSet`
  models in-place key assignment (replace when present, append when absent),
  `jget` models `d.get(k)` (with `None` default) and `jgetD` models
  `d.get(k, default)`.
* Each `try/except` section of `fetch_health_data` becomes a total function on
  records; an API accessor that raises is the `ApiResult.exn` case, and
  exceptions raised part way through a section (for example a `TypeError` from
  arithmetic on a non-numeric value) are modelled with `Option`-valued steps
  chained by `tryStep`, which freezes the record at the point of failure,
  exactly as the enclosing `except` clause does.
* Dates are days since the Unix epoch (an integer); `datetime` arithmetic with
  `timedelta(days=1)` is integer successor, and `strftime("%Y-%m-%d")` /
  `strptime` are implemented over the proleptic Gregorian calendar.
* Wall-clock strings produced by `datetime.now().isoformat()` are abstracted
  as an input parameter, and the Garmin client is a record of response
  functions, one per accessor endpoint, plus a login success flag.
-/

namespace SyncGarmin

/-- A Python/JSON value as handled by the script. -/
inductive JVal where
  | null
  | bool (b : Bool)
  | num (q : ℚ)
  | str (s : String)
  | arr (xs : List JVal)
  | obj (fields : List (String × JVal))

/-- Python truthiness for the values above. -/
def truthy : JVal → Bool
  | .null => false
  | .bool b => b
  | .num q => q != 0
  | .str s => s != ""
  | .arr xs => !xs.isEmpty
  | .obj fs => !fs.isEmpty

/-- A record or dictionary: an association list of string keys. -/
abbrev Record := List (String × JVal)

/-- Python `d.get(k)`: the stored value, or `None` when the key is absent. -/
def jget : Record → String → JVal
  | [], _ => .null
  | (k, v) :: rest, key => if k = key then v else jget rest key

/-- Python `d.get(k, default)`. -/
def jgetD : Record → String → JVal → JVal
  | [], _, dflt => dflt
  | (k, v) :: rest, key, dflt => if k = key then v else jgetD rest key dflt

/-- Python `k in d` for a dictionary. -/
def containsKey : Record → String → Bool
  | [], _ => false
  | (k, _) :: rest, key => k = key || containsKey rest key

/-- Python `d[k] = v`: replace the value when the key is present (keeping its
position, as insertion-ordered dictionaries do), append otherwise. -/
def dictSet : Record → String → JVal → Record
  | [], key, v => [(key, v)]
  | (k, w) :: rest, key, v =>
      if k = key then (key, v) :: rest else (k, w) :: dictSet rest key v

/-- Coerce a value to a number the way Python arithmetic does: numbers are
themselves and booleans are 0 or 1; anything else is a `TypeError`. -/
def toNum : JVal → Option ℚ
  | .num q => some q
  | .bool b => some (if b then 1 else 0)
  | _ => none

/-- Python `a or b`. -/
def pyOr (a b : JVal) : JVal := if truthy a then a else b

/-- Python `a + b` for the values that can appear here: numeric addition,
string and list concatenation; `none` is a raised `TypeError`. -/
def pyAdd : JVal → JVal → Option JVal
  | .str a, .str b => some (.str (a ++ b))
  | .arr a, .arr b => some (.arr (a ++ b))
  | a, b =>
      match toNum a, toNum b with
      | some x, some y => some (.num (x + y))
      | _, _ => none

/-- Python `v * 2` with the integer literal 2: numeric doubling, string and
list repetition; `none` is a raised `TypeError`. -/
def pyTimesTwo : JVal → Option JVal
  | .str s => some (.str (s ++ s))
  | .arr xs => some (.arr (xs ++ xs))
  | v =>
      match toNum v with
      | some q => some (.num (2 * q))
      | none => none

/-- Python `v // 60`: floor division; `none` is a raised `TypeError`. -/
def pyFloorDiv60 (v : JVal) : Option JVal :=
  match toNum v with
  | some q => some (.num ((⌊q / 60⌋ : ℤ) : ℚ))
  | none => none

/-- Python `v / 1000` (the grams to kilograms conversion); `none` is a raised
`TypeError`. -/
def pyDiv1000 (v : JVal) : Option JVal :=
  match toNum v with
  | some q => some (.num (q / 1000))
  | none => none

/-- Round to the nearest integer, ties to even, as Python `round` does. -/
def roundHalfEven (q : ℚ) : ℤ :=
  let f := ⌊q⌋
  let r := q - (f : ℚ)
  if r < 1 / 2 then f
  else if 1 / 2 < r then f + 1
  else if f % 2 = 0 then f else f + 1

/-- Python `round(v, 1)`; `none` is a raised `TypeError`. -/
def pyRound1 (v : JVal) : Option JVal :=
  match toNum v with
  | some q => some (.num ((roundHalfEven (10 * q) : ℚ) / 10))
  | none => none

/-- Python `round(v / 1000, 1)`, used for weight, muscleMass and boneMass. -/
def divRound (v : JVal) : Option JVal := (pyDiv1000 v).bind pyRound1

/-- The outcome of one Garmin client accessor call: either it raised, or it
returned a value. -/
inductive ApiResult where
  | exn
  | ok (v : JVal)

/-- The Garmin client object: one response function per accessor endpoint
(the argument is the `YYYY-MM-DD` date string) plus a flag telling whether
`Garmin(email, password)` / `client.login()` succeeds. -/
structure Garmin where
  loginOk : Bool
  get_stats : String → ApiResult
  get_hrv_data : String → ApiResult
  get_stress_data : String → ApiResult
  get_sleep_data : String → ApiResult
  get_respiration_data : String → ApiResult
  get_body_composition : String → ApiResult

/-- The HTTP calls the script can make, for order-of-calls properties. -/
inductive ApiCall where
  | login
  | getStats
  | getHrvData
  | getStressData
  | getSleepData
  | getRespirationData
  | getBodyComposition
deriving DecidableEq

/-- One step inside a `try` body: `none` means the step raised. `tryStep`
threads a flag telling whether the section is still executing; once a step
raises, the record is frozen, as the enclosing `except` clause leaves it. -/
def tryStep (f : Record → Option Record) : Record × Bool → Record × Bool
  | (d, false) => (d, false)
  | (d, true) =>
      match f d with
      | none => (d, false)
      | some d2 => (d2, true)

/-- The record skeleton built at lines 38-75 of sync_garmin.py, in source
order, with every data field initialised to `None`. -/
def initRecord (date_str now : String) : Record :=
  [("date", .str date_str), ("source", .str "garmin"), ("fetchedAt", .str now),
   ("hrv", .null), ("rhr", .null), ("stressAvg", .null), ("respiration", .null),
   ("sleepDuration", .null), ("sleepDeep", .null), ("sleepLight", .null),
   ("sleepRem", .null), ("sleepAwake", .null), ("sleepScore", .null),
   ("sleepInterruptions", .null),
   ("steps", .null), ("floors", .null), ("intensityMinutes", .null),
   ("intensityMinutesModerate", .null), ("intensityMinutesVigorous", .null),
   ("calories", .null), ("activeCalories", .null),
   ("weight", .null), ("bmi", .null), ("bodyFat", .null), ("muscleMass", .null),
   ("visceralFat", .null), ("bodyWater", .null), ("boneMass", .null)]

/-- The fixed key list of a day record, in source order. -/
def recordKeys : List String :=
  ["date", "source", "fetchedAt",
   "hrv", "rhr", "stressAvg", "respiration",
   "sleepDuration", "sleepDeep", "sleepLight", "sleepRem", "sleepAwake",
   "sleepScore", "sleepInterruptions",
   "steps", "floors", "intensityMinutes", "intensityMinutesModerate",
   "intensityMinutesVigorous", "calories", "activeCalories",
   "weight", "bmi", "bodyFat", "muscleMass", "visceralFat", "bodyWater",
   "boneMass"]

/-- Lines 77-95: the stats section. A non-dictionary truthy response raises
`AttributeError` at the first `.get` before any assignment, so every
non-dictionary case leaves the record unchanged. Inside the dictionary case
the five plain extractions cannot raise; the intensity-minutes sum can raise
a `TypeError` after both components were already assigned. -/
def statsBlock (r : ApiResult) (hd : Record) : Record :=
  match r with
  | .exn => hd
  | .ok v =>
      match v with
      | .obj fs =>
          if fs.isEmpty then hd
          else
            let hd := dictSet hd "rhr" (jget fs "restingHeartRate")
            let hd := dictSet hd "steps" (jget fs "totalSteps")
            let hd := dictSet hd "floors" (jget fs "floorsClimbed")
            let hd := dictSet hd "calories" (jget fs "totalKilocalories")
            let hd := dictSet hd "activeCalories" (jget fs "activeKilocalories")
            let moderate := pyOr (jget fs "moderateIntensityMinutes") (.num 0)
            let vigorous := pyOr (jget fs "vigorousIntensityMinutes") (.num 0)
            let hd := dictSet hd "intensityMinutesModerate" moderate
            let hd := dictSet hd "intensityMinutesVigorous" vigorous
            match pyTimesTwo vigorous with
            | none => hd
            | some v2 =>
                match pyAdd moderate v2 with
                | none => hd
                | some s => dictSet hd "intensityMinutes" s
      | _ => hd

/-- Lines 97-104: the HRV section. The membership test and indexing on a
truthy non-dictionary either raise or lead to a raising index expression, in
every case before any assignment, so those cases leave the record unchanged;
a non-dictionary `hrvSummary` raises at `.get`. -/
def hrvBlock (r : ApiResult) (hd : Record) : Record :=
  match r with
  | .exn => hd
  | .ok v =>
      match v with
      | .obj fs =>
          if !fs.isEmpty && containsKey fs "hrvSummary" then
            match jget fs "hrvSummary" with
            | .obj hs =>
                dictSet hd "hrv" (pyOr (jget hs "lastNightAvg") (jget hs "weeklyAvg"))
            | _ => hd
          else hd
      | _ => hd

/-- Lines 106-113: the stress section. -/
def stressBlock (r : ApiResult) (hd : Record) : Record :=
  match r with
  | .exn => hd
  | .ok v =>
      match v with
      | .obj fs =>
          if fs.isEmpty then hd
          else dictSet hd "stressAvg" (jget fs "avgStressLevel")
      | _ => hd

/-- One guarded sleep stage extraction, lines 121-130:
`if s.get(src): health_data[dst] = s[src] // 60`. -/
def sleepStage (sf : Record) (src dst : String) : Record → Option Record :=
  fun hd =>
    if truthy (jget sf src) then
      (pyFloorDiv60 (jget sf src)).map (fun v => dictSet hd dst v)
    else some hd

/-- Line 132: `health_data["sleepInterruptions"] = s.get("awakeCount")`. -/
def sleepAwakeCount (sf : Record) : Record → Option Record :=
  fun hd => some (dictSet hd "sleepInterruptions" (jget sf "awakeCount"))

/-- Lines 134-141: the sleep score extraction. A non-dictionary
`scores["overall"]` raises at `.get`. -/
def sleepScoreStep (sf : Record) : Record → Option Record :=
  fun hd =>
    if containsKey sf "sleepScores" then
      match jget sf "sleepScores" with
      | .obj ss =>
          if containsKey ss "overall" then
            match jget ss "overall" with
            | .obj ov => some (dictSet hd "sleepScore" (jget ov "value"))
            | _ => none
          else if containsKey ss "overallScore" then
            some (dictSet hd "sleepScore" (jget ss "overallScore"))
          else some hd
      | _ => some hd
    else some hd

/-- The body of the sleep section once `dailySleepDTO` is a dictionary `sf`. -/
def sleepSets (sf : Record) (hd : Record) : Record :=
  let st := (hd, true)
  let st := tryStep (sleepStage sf "sleepTimeSeconds" "sleepDuration") st
  let st := tryStep (sleepStage sf "deepSleepSeconds" "sleepDeep") st
  let st := tryStep (sleepStage sf "lightSleepSeconds" "sleepLight") st
  let st := tryStep (sleepStage sf "remSleepSeconds" "sleepRem") st
  let st := tryStep (sleepStage sf "awakeSleepSeconds" "sleepAwake") st
  let st := tryStep (sleepAwakeCount sf) st
  let st := tryStep (sleepScoreStep sf) st
  st.1

/-- Lines 115-145: the sleep section. -/
def sleepBlock (r : ApiResult) (hd : Record) : Record :=
  match r with
  | .exn => hd
  | .ok v =>
      match v with
      | .obj fs =>
          if !fs.isEmpty && containsKey fs "dailySleepDTO" then
            match jget fs "dailySleepDTO" with
            | .obj sf => sleepSets sf hd
            | _ => hd
          else hd
      | _ => hd

/-- Lines 147-154: the respiration section. -/
def respirationBlock (r : ApiResult) (hd : Record) : Record :=
  match r with
  | .exn => hd
  | .ok v =>
      match v with
      | .obj fs =>
          if fs.isEmpty then hd
          else
            dictSet hd "respiration"
              (pyOr (jget fs "avgWakingRespirationValue")
                    (jget fs "avgSleepRespirationValue"))
      | _ => hd

/-- Line 160: `health_data["weight"] = round(body["weight"] / 1000, 1)`. -/
def bodyWeightStep (fs : Record) : Record → Option Record :=
  fun hd => (divRound (jget fs "weight")).map (fun v => dictSet hd "weight" v)

/-- Lines 161-162 and 165: `round(body.get(k, 0), 1) if body.get(k) else None`. -/
def bodyRoundStep (fs : Record) (src dst : String) : Record → Option Record :=
  fun hd =>
    if truthy (jget fs src) then
      (pyRound1 (jgetD fs src (.num 0))).map (fun v => dictSet hd dst v)
    else some (dictSet hd dst .null)

/-- Lines 163 and 166: `round(body.get(k, 0) / 1000, 1) if body.get(k) else None`. -/
def bodyDivRoundStep (fs : Record) (src dst : String) : Record → Option Record :=
  fun hd =>
    if truthy (jget fs src) then
      (divRound (jgetD fs src (.num 0))).map (fun v => dictSet hd dst v)
    else some (dictSet hd dst .null)

/-- Line 164: `health_data["visceralFat"] = body.get("visceralFat")`. -/
def bodyVisceralStep (fs : Record) : Record → Option Record :=
  fun hd => some (dictSet hd "visceralFat" (jget fs "visceralFat"))

/-- The body of the body-composition section once the guard at line 159 held. -/
def bodySets (fs : Record) (hd : Record) : Record :=
  let st := (hd, true)
  let st := tryStep (bodyWeightStep fs) st
  let st := tryStep (bodyRoundStep fs "bmi" "bmi") st
  let st := tryStep (bodyRoundStep fs "bodyFat" "bodyFat") st
  let st := tryStep (bodyDivRoundStep fs "muscleMass" "muscleMass") st
  let st := tryStep (bodyVisceralStep fs) st
  let st := tryStep (bodyRoundStep fs "bodyWater" "bodyWater") st
  let st := tryStep (bodyDivRoundStep fs "boneMass" "boneMass") st
  st.1

/-- Lines 156-169: the body-composition section, entered only when
`body and body.get("weight")` is truthy. -/
def bodyBlock (r : ApiResult) (hd : Record) : Record :=
  match r with
  | .exn => hd
  | .ok v =>
      match v with
      | .obj fs =>
          if !fs.isEmpty && truthy (jget fs "weight") then bodySets fs hd
          else hd
      | _ => hd

/-- The six accessor sections of `fetch_health_data`, in source order. -/
inductive ApiSection where
  | stats
  | hrv
  | stress
  | sleep
  | respiration
  | body
deriving DecidableEq

/-- The accessor call a section performs. -/
def sectionCall : ApiSection → ApiCall
  | .stats => .getStats
  | .hrv => .getHrvData
  | .stress => .getStressData
  | .sleep => .getSleepData
  | .respiration => .getRespirationData
  | .body => .getBodyComposition

/-- The source order of the six sections. -/
def sectionOrder : List ApiSection :=
  [.stats, .hrv, .stress, .sleep, .respiration, .body]

/-- The accessor result a given section sees. -/
def sectionResult (g : Garmin) (ds : String) : ApiSection → ApiResult
  | .stats => g.get_stats ds
  | .hrv => g.get_hrv_data ds
  | .stress => g.get_stress_data ds
  | .sleep => g.get_sleep_data ds
  | .respiration => g.get_respiration_data ds
  | .body => g.get_body_composition ds

/-- Dispatch one section on the record being built. -/
def applySection (g : Garmin) (ds : String) (s : ApiSection) (hd : Record) : Record :=
  match s with
  | .stats => statsBlock (g.get_stats ds) hd
  | .hrv => hrvBlock (g.get_hrv_data ds) hd
  | .stress => stressBlock (g.get_stress_data ds) hd
  | .sleep => sleepBlock (g.get_sleep_data ds) hd
  | .respiration => respirationBlock (g.get_respiration_data ds) hd
  | .body => bodyBlock (g.get_body_composition ds) hd

/-- The Gregorian date for a day count since 1970-01-01 (proleptic calendar,
the `days_from_civil` inverse); all divisors are positive so `/` on `ℤ`
is floor division here. -/
def civilFromDays (z0 : ℤ) : ℤ × ℤ × ℤ :=
  let z := z0 + 719468
  let era := z / 146097
  let doe := z - era * 146097
  let yoe := (doe - doe / 1460 + doe / 36524 - doe / 146096) / 365
  let y := yoe + era * 400
  let doy := doe - (365 * yoe + yoe / 4 - yoe / 100)
  let mp := (5 * doy + 2) / 153
  let d := doy - (153 * mp + 2) / 5 + 1
  let m := mp + (if mp < 10 then 3 else -9)
  (y + (if m ≤ 2 then 1 else 0), m, d)

/-- The day count since 1970-01-01 of a Gregorian date. -/
def daysFromCivil (y0 m d : ℤ) : ℤ :=
  let y := y0 - (if m ≤ 2 then 1 else 0)
  let era := y / 400
  let yoe := y - era * 400
  let doy := (153 * (m + (if 2 < m then -3 else 9)) + 2) / 5 + d - 1
  let doe := yoe * 365 + yoe / 4 - yoe / 100 + doy
  era * 146097 + doe - 719468

/-- The character of a decimal digit. -/
def digitChar (n : ℕ) : Char := Char.ofNat (48 + n % 10)

/-- Two zero-padded decimal digits. -/
def pad2 (n : ℕ) : List Char := [digitChar (n / 10), digitChar n]

/-- Four zero-padded decimal digits. -/
def pad4 (n : ℕ) : List Char :=
  [digitChar (n / 1000), digitChar (n / 100), digitChar (n / 10), digitChar n]

/-- Lines 22-24, `get_date_string`: format a date as `YYYY-MM-DD`, as
`strftime("%Y-%m-%d")` does for the years the script handles. -/
def get_date_string (z : ℤ) : String :=
  let c := civilFromDays z
  String.mk (pad4 c.1.toNat ++ ('-' :: pad2 c.2.1.toNat) ++ ('-' :: pad2 c.2.2.toNat))

/-- Lines 32-171, `fetch_health_data`: build the day record and the list of
accessor calls issued, in order. -/
def fetch_health_data (g : Garmin) (target : ℤ) (now : String) :
    Record × List ApiCall :=
  let ds := get_date_string target
  sectionOrder.foldl
    (fun acc s => (applySection g ds s acc.1, acc.2 ++ [sectionCall s]))
    (initRecord ds now, [])

/-- Interpret a run of decimal digit characters, `none` when empty, too long
for the `strptime` field width, or containing a non-digit. -/
def parseNumField (cs : List Char) (maxLen : ℕ) : Option ℤ :=
  if cs.isEmpty || maxLen < cs.length || !cs.all Char.isDigit then none
  else some ((cs.foldl (fun a c => a * 10 + (c.toNat - 48)) 0 : ℕ) : ℤ)

/-- Split a character list at the separator character. -/
def splitOnChar (sep : Char) (cs : List Char) : List (List Char) :=
  match cs with
  | [] => [[]]
  | c :: rest =>
      let r := splitOnChar sep rest
      if c = sep then [] :: r
      else
        match r with
        | [] => [[c]]
        | p :: ps => (c :: p) :: ps

/-- Whether a year is a Gregorian leap year. -/
def isLeap (y : ℤ) : Bool := y % 4 = 0 && (y % 100 != 0 || y % 400 = 0)

/-- The number of days of a month. -/
def daysInMonth (y m : ℤ) : ℤ :=
  if m = 2 then (if isLeap y then 29 else 28)
  else if m = 4 || m = 6 || m = 9 || m = 11 then 30
  else 31

/-- Lines 27-29, `parse_date`: `strptime(s, "%Y-%m-%d")` as a day count;
`none` is a raised `ValueError` (which line 204-205 of `main` does not
catch). -/
def parse_date (s : String) : Option ℤ :=
  match splitOnChar '-' s.toList with
  | [ys, ms, ds] =>
      match parseNumField ys 4, parseNumField ms 2, parseNumField ds 2 with
      | some y, some m, some d =>
          if 1 ≤ y && y ≤ 9999 && 1 ≤ m && m ≤ 12 && 1 ≤ d && d ≤ daysInMonth y m
          then some (daysFromCivil y m d)
          else none
      | _, _, _ => none
  | _ => none

/-- Lines 210-216: the `while current_date <= end_date` loop, as the list of
days visited. -/
def dateRange (s e : ℤ) : List ℤ :=
  if h : s ≤ e then s :: dateRange (s + 1) e else []
termination_by (e + 1 - s).toNat
decreasing_by simp_wf; omega

/-- The environment variables read by `main` (`os.environ.get` returns `None`
for an unset variable). -/
structure Env where
  email : Option String
  password : Option String
  start_date_str : Option String
  end_date_str : Option String

/-- Truthiness of an `os.environ.get` result: set and non-empty. -/
def optTruthy : Option String → Bool
  | none => false
  | some s => s != ""

/-- The outcome of a run of `main`: an `exit(1)`, an uncaught exception
(`parse_date` raising `ValueError`), or a written output document; each case
carries the HTTP calls made, in order. -/
inductive MainResult where
  | exited (code : ℕ) (trace : List ApiCall)
  | crashed (trace : List ApiCall)
  | wrote (output : Record) (trace : List ApiCall)

/-- Lines 219-227: the historical-mode output document, in source key order. -/
def histOutput (now s e : String) (hist : List Record) : Record :=
  [("lastSync", .str now), ("mode", .str "historical"),
   ("startDate", .str s), ("endDate", .str e),
   ("today", .null), ("yesterday", .null),
   ("history", .arr (hist.map .obj))]

/-- Lines 241-247: the daily-mode output document, in source key order. -/
def dailyOutput (now : String) (t y : Record) : Record :=
  [("lastSync", .str now), ("mode", .str "daily"),
   ("today", .obj t), ("yesterday", .obj y),
   ("history", .arr [])]

/-- Lines 202-229: the historical branch of `main`. -/
def runHistorical (g : Garmin) (now : String) (s e : String) : MainResult :=
  match parse_date s with
  | none => .crashed [.login]
  | some ds =>
      match parse_date e with
      | none => .crashed [.login]
      | some de =>
          let fetches := (dateRange ds de).map (fun d => fetch_health_data g d now)
          .wrote (histOutput now s e (fetches.map Prod.fst))
                 (.login :: (fetches.map Prod.snd).flatten)

/-- Lines 231-247: the daily branch of `main` (`today` and `yesterday`). -/
def runDaily (g : Garmin) (now : String) (todayDate : ℤ) : MainResult :=
  let t := fetch_health_data g todayDate now
  let y := fetch_health_data g (todayDate - 1) now
  .wrote (dailyOutput now t.1 y.1) (.login :: (t.2 ++ y.2))

/-- Lines 174-258, `main`: credential check, login, mode selection, fetch and
output. `now` abstracts the wall-clock strings and `todayDate` the current
date. -/
def main (env : Env) (g : Garmin) (now : String) (todayDate : ℤ) : MainResult :=
  if !optTruthy env.email || !optTruthy env.password then .exited 1 []
  else if !g.loginOk then .exited 1 [.login]
  else
    match env.start_date_str, env.end_date_str with
    | some s, some e =>
        if s != "" && e != "" then runHistorical g now s e
        else runDaily g now todayDate
    | _, _ => runDaily g now todayDate

/-! Auxiliary predicates and concrete instances used by the theorems. -/

/-- The record keys a section can write. -/
def sectionKeys : ApiSection → List String
  | .stats => ["rhr", "steps", "floors", "calories", "activeCalories",
               "intensityMinutesModerate", "intensityMinutesVigorous",
               "intensityMinutes"]
  | .hrv => ["hrv"]
  | .stress => ["stressAvg"]
  | .sleep => ["sleepDuration", "sleepDeep", "sleepLight", "sleepRem",
               "sleepAwake", "sleepInterruptions", "sleepScore"]
  | .respiration => ["respiration"]
  | .body => ["weight", "bmi", "bodyFat", "muscleMass", "visceralFat",
              "bodyWater", "boneMass"]

/-- A step writes at most the key `dst`. -/
def WritesTo (f : Record → Option Record) (dst : String) : Prop :=
  ∀ d d2, f d = some d2 → d2 = d ∨ ∃ v, d2 = dictSet d dst v

/-- A step cannot turn the value at `k` from `None` into something else. -/
def KeepsNull (f : Record → Option Record) (k : String) : Prop :=
  ∀ d d2, f d = some d2 → jget d k = .null → jget d2 k = .null

/-- A nullable scalar: `None`, a boolean, a number or a string. -/
def isScalar : JVal → Bool
  | .null => true
  | .bool _ => true
  | .num _ => true
  | .str _ => true
  | .arr _ => false
  | .obj _ => false

/-- Every value stored in the record is a nullable scalar. -/
def ScalarVals (d : Record) : Prop := ∀ w ∈ d.map Prod.snd, isScalar w = true

/-- Whether a section sees a response its guard accepts: for stats, stress and
respiration a truthy (non-empty) dictionary. -/
def entered : ApiResult → Bool
  | .ok (.obj fs) => !fs.isEmpty
  | _ => false

/-- Whether the body-composition guard at line 159 accepts the response. -/
def bodyEntered : ApiResult → Bool
  | .ok (.obj fs) => !fs.isEmpty && truthy (jget fs "weight")
  | _ => false

/-- Replace one accessor of the client by one returning `None`; the affected
section then contributes nothing, like a raising accessor. -/
def sectionNulled (g : Garmin) : ApiSection → Garmin
  | .stats => { g with get_stats := fun _ => .ok .null }
  | .hrv => { g with get_hrv_data := fun _ => .ok .null }
  | .stress => { g with get_stress_data := fun _ => .ok .null }
  | .sleep => { g with get_sleep_data := fun _ => .ok .null }
  | .respiration => { g with get_respiration_data := fun _ => .ok .null }
  | .body => { g with get_body_composition := fun _ => .ok .null }

/-- Python `round(q, 1)` on an exact rational. -/
def round1q (q : ℚ) : ℚ := (roundHalfEven (10 * q) : ℚ) / 10

/-- Grams to kilograms, rounded to one decimal place: `round(w / 1000, 1)`. -/
def gramsToKg (w : ℚ) : ℚ := round1q (w / 1000)

/-- A value that is either falsy or a number; arithmetic on it inside a guard
`if v:` cannot raise. -/
def NumOrFalsy (v : JVal) : Prop := truthy v = false ∨ ∃ q : ℚ, v = .num q

/-- The six per-day accessor calls, in the order lines 77-169 make them. -/
def accessorCalls : List ApiCall :=
  [.getStats, .getHrvData, .getStressData, .getSleepData,
   .getRespirationData, .getBodyComposition]

/-- A client whose stats response contains only totalSteps. -/
def cStepsOnly : Garmin :=
  { loginOk := true
    get_stats := fun _ => .ok (.obj [("totalSteps", .num 5)])
    get_hrv_data := fun _ => .exn
    get_stress_data := fun _ => .exn
    get_sleep_data := fun _ => .exn
    get_respiration_data := fun _ => .exn
    get_body_composition := fun _ => .exn }

/-- A client whose stats response stores a nested mapping under
moderateIntensityMinutes. -/
def cStatsObjMod : Garmin :=
  { loginOk := true
    get_stats := fun _ => .ok (.obj [("moderateIntensityMinutes",
        .obj [("x", .num 1)])])
    get_hrv_data := fun _ => .exn
    get_stress_data := fun _ => .exn
    get_sleep_data := fun _ => .exn
    get_respiration_data := fun _ => .exn
    get_body_composition := fun _ => .exn }

/-- A client reporting 3 moderate intensity minutes and nothing else. -/
def cIntNum : Garmin :=
  { loginOk := true
    get_stats := fun _ => .ok (.obj [("moderateIntensityMinutes", .num 3)])
    get_hrv_data := fun _ => .exn
    get_stress_data := fun _ => .exn
    get_sleep_data := fun _ => .exn
    get_respiration_data := fun _ => .exn
    get_body_composition := fun _ => .exn }

/-- A client whose body-composition response contains only a weight. -/
def cWeightOnly : Garmin :=
  { loginOk := true
    get_stats := fun _ => .exn
    get_hrv_data := fun _ => .exn
    get_stress_data := fun _ => .exn
    get_sleep_data := fun _ => .exn
    get_respiration_data := fun _ => .exn
    get_body_composition := fun _ => .ok (.obj [("weight", .num 70000)]) }

/-- A client whose stats response stores a nested mapping under
restingHeartRate. -/
def cObjRhr : Garmin :=
  { loginOk := true
    get_stats := fun _ => .ok (.obj [("restingHeartRate",
        .obj [("x", .num 1)])])
    get_hrv_data := fun _ => .exn
    get_stress_data := fun _ => .exn
    get_sleep_data := fun _ => .exn
    get_respiration_data := fun _ => .exn
    get_body_composition := fun _ => .exn }

/-- The values the stats section extracts are scalars. -/
def statsScalarOK (r : ApiResult) : Prop :=
  ∀ fs, r = .ok (.obj fs) →
    isScalar (jget fs "restingHeartRate") = true ∧
    isScalar (jget fs "totalSteps") = true ∧
    isScalar (jget fs "floorsClimbed") = true ∧
    isScalar (jget fs "totalKilocalories") = true ∧
    isScalar (jget fs "activeKilocalories") = true ∧
    isScalar (jget fs "moderateIntensityMinutes") = true ∧
    isScalar (jget fs "vigorousIntensityMinutes") = true

/-- The values the HRV section extracts are scalars. -/
def hrvScalarOK (r : ApiResult) : Prop :=
  ∀ fs hs, r = .ok (.obj fs) → jget fs "hrvSummary" = .obj hs →
    isScalar (jget hs "lastNightAvg") = true ∧
    isScalar (jget hs "weeklyAvg") = true

/-- The value the stress section extracts is a scalar. -/
def stressScalarOK (r : ApiResult) : Prop :=
  ∀ fs, r = .ok (.obj fs) → isScalar (jget fs "avgStressLevel") = true

/-- The values the sleep section extracts are scalars. -/
def sleepScalarOK (r : ApiResult) : Prop :=
  ∀ fs sf, r = .ok (.obj fs) → jget fs "dailySleepDTO" = .obj sf →
    isScalar (jget sf "awakeCount") = true ∧
    ∀ ss, jget sf "sleepScores" = .obj ss →
      isScalar (jget ss "overallScore") = true ∧
      ∀ ov, jget ss "overall" = .obj ov → isScalar (jget ov "value") = true

/-- The values the respiration section extracts are scalars. -/
def respirationScalarOK (r : ApiResult) : Prop :=
  ∀ fs, r = .ok (.obj fs) →
    isScalar (jget fs "avgWakingRespirationValue") = true ∧
    isScalar (jget fs "avgSleepRespirationValue") = true

/-- The value the body section stores verbatim is a scalar. -/
def bodyScalarOK (r : ApiResult) : Prop :=
  ∀ fs, r = .ok (.obj fs) → isScalar (jget fs "visceralFat") = true

/-- A daily-mode environment with credentials present. -/
def envDaily : Env := ⟨some "e", some "p", none, none⟩

/-- A Garmin client all of whose accessor calls raise. -/
def cAllExn : Garmin :=
  { loginOk := true
    get_stats := fun _ => .exn
    get_hrv_data := fun _ => .exn
    get_stress_data := fun _ => .exn
    get_sleep_data := fun _ => .exn
    get_respiration_data := fun _ => .exn
    get_body_composition := fun _ => .exn }

/-! Basic dictionary lemmas. -/

theorem jget_dictSet (d : Record) (k key : String) (v : JVal) :
    jget (dictSet d k v) key = if key = k then v else jget d key := by
  induction d with
  | nil =>
      by_cases h : key = k
      · simp only [dictSet, jget, if_pos h, if_pos h.symm]
      · simp only [dictSet, jget, if_neg h, if_neg (fun h2 : k = key => h h2.symm)]
  | cons p rest ih =>
      obtain ⟨a, b⟩ := p
      by_cases h1 : a = k
      · subst h1
        by_cases h2 : key = a
        · simp only [dictSet, if_pos rfl, jget, if_pos h2.symm, if_pos h2]
        · simp only [dictSet, if_pos rfl, jget,
            if_neg (fun h3 : a = key => h2 h3.symm), if_neg h2]
      · by_cases h2 : a = key
        · have h3 : ¬key = k := fun h4 => h1 (h2.trans h4)
          simp only [dictSet, if_neg h1, jget, if_pos h2, if_neg h3]
        · simp only [dictSet, if_neg h1, jget, if_neg h2, ih]

theorem jget_dictSet_same (d : Record) (k : String) (v : JVal) :
    jget (dictSet d k v) k = v := by simp [jget_dictSet]

theorem jget_dictSet_ne (d : Record) {k key : String} (h : key ≠ k) (v : JVal) :
    jget (dictSet d k v) key = jget d key := by simp [jget_dictSet, h]

theorem jget_eq_null_of_containsKey (d : Record) (k : String)
    (h : containsKey d k = false) : jget d k = .null := by
  induction d with
  | nil => rfl
  | cons p rest ih =>
      obtain ⟨a, b⟩ := p
      simp only [containsKey, Bool.or_eq_false_iff] at h
      simp only [jget, if_neg (by simpa using h.1)]
      exact ih h.2

theorem map_fst_dictSet (d : Record) (k : String) (v : JVal)
    (h : containsKey d k = true) :
    (dictSet d k v).map Prod.fst = d.map Prod.fst := by
  induction d with
  | nil => simp [containsKey] at h
  | cons p rest ih =>
      obtain ⟨a, b⟩ := p
      simp only [containsKey, Bool.or_eq_true] at h
      by_cases h1 : a = k
      · simp [dictSet, h1]
      · simp only [dictSet, if_neg h1, List.map_cons]
        rw [ih (h.resolve_left (by simpa using h1))]

theorem containsKey_of_map_fst {d e : Record}
    (h : d.map Prod.fst = e.map Prod.fst) (k : String) :
    containsKey d k = containsKey e k := by
  induction d generalizing e with
  | nil => cases e <;> simp_all [containsKey]
  | cons p rest ih =>
      cases e with
      | nil => simp at h
      | cons q erest =>
          simp only [List.map_cons, List.cons.injEq] at h
          simp [containsKey, h.1, ih h.2]

theorem snd_mem_dictSet {d : Record} {k : String} {v w : JVal}
    (h : w ∈ (dictSet d k v).map Prod.snd) : w = v ∨ w ∈ d.map Prod.snd := by
  induction d with
  | nil => simpa [dictSet] using h
  | cons p rest ih =>
      obtain ⟨a, b⟩ := p
      by_cases h1 : a = k
      · simp only [dictSet, if_pos h1, List.map_cons, List.mem_cons] at h
        rcases h with h | h
        · exact .inl h
        · exact .inr (by simp [h])
      · simp only [dictSet, if_neg h1, List.map_cons, List.mem_cons] at h
        rcases h with h | h
        · exact .inr (by simp [h])
        · rcases ih h with h2 | h2
          · exact .inl h2
          · exact .inr (by simp [h2])

/-! Unfolding of `fetch_health_data` into the six sections. -/

theorem fetch_health_data_def (g : Garmin) (t : ℤ) (now : String) :
    fetch_health_data g t now =
      (bodyBlock (g.get_body_composition (get_date_string t))
        (respirationBlock (g.get_respiration_data (get_date_string t))
          (sleepBlock (g.get_sleep_data (get_date_string t))
            (stressBlock (g.get_stress_data (get_date_string t))
              (hrvBlock (g.get_hrv_data (get_date_string t))
                (statsBlock (g.get_stats (get_date_string t))
                  (initRecord (get_date_string t) now)))))),
       [.getStats, .getHrvData, .getStressData, .getSleepData,
        .getRespirationData, .getBodyComposition]) := rfl

/-! Step lemmas for the `tryStep` chains. -/

theorem tryStep_frame {f : Record → Option Record} {dst : String}
    (hw : WritesTo f dst) {k : String} (hk : k ≠ dst) (st : Record × Bool) :
    jget (tryStep f st).1 k = jget st.1 k := by
  obtain ⟨d, b⟩ := st
  cases b
  · rfl
  · simp only [tryStep]
    cases h : f d with
    | none => rfl
    | some d2 =>
        rcases hw d d2 h with h2 | ⟨v, h2⟩
        · simp [h2]
        · simp [h2, jget_dictSet_ne _ hk]

theorem tryStep_id {f : Record → Option Record} (hid : ∀ d, f d = some d)
    (st : Record × Bool) : tryStep f st = st := by
  obtain ⟨d, b⟩ := st
  cases b
  · rfl
  · simp [tryStep, hid d]

theorem tryStep_null {f : Record → Option Record} {k : String}
    (h : KeepsNull f k) (st : Record × Bool) (h0 : jget st.1 k = .null) :
    jget (tryStep f st).1 k = .null := by
  obtain ⟨d, b⟩ := st
  cases b
  · exact h0
  · simp only [tryStep]
    cases hf : f d with
    | none => exact h0
    | some d2 => exact h d d2 hf h0

theorem tryStep_keys {f : Record → Option Record} {dst : String}
    (hw : WritesTo f dst) (st : Record × Bool)
    (h : containsKey st.1 dst = true) :
    ((tryStep f st).1).map Prod.fst = (st.1).map Prod.fst := by
  obtain ⟨d, b⟩ := st
  cases b
  · rfl
  · simp only [tryStep]
    cases hf : f d with
    | none => rfl
    | some d2 =>
        rcases hw d d2 hf with h2 | ⟨v, h2⟩
        · simp [h2]
        · simp [h2, map_fst_dictSet _ _ _ h]

theorem keepsNull_of_writesTo {f : Record → Option Record} {dst k : String}
    (hw : WritesTo f dst) (hk : k ≠ dst) : KeepsNull f k := by
  intro d d2 h h0
  rcases hw d d2 h with h2 | ⟨v, h2⟩
  · simp [h2, h0]
  · simp [h2, jget_dictSet_ne _ hk, h0]

/-! The write discipline of the individual steps. -/

theorem sleepStage_writesTo (sf : Record) (src dst : String) :
    WritesTo (sleepStage sf src dst) dst := by
  intro d d2 h
  unfold sleepStage at h
  split at h
  · rcases Option.map_eq_some.mp h with ⟨v, _, h2⟩
    exact .inr ⟨v, h2.symm⟩
  · exact .inl (Option.some.inj h).symm

theorem sleepAwakeCount_writesTo (sf : Record) :
    WritesTo (sleepAwakeCount sf) "sleepInterruptions" := by
  intro d d2 h
  exact .inr ⟨_, (Option.some.inj h).symm⟩

theorem sleepScoreStep_writesTo (sf : Record) :
    WritesTo (sleepScoreStep sf) "sleepScore" := by
  intro d d2 h
  unfold sleepScoreStep at h
  split at h
  · split at h
    · split at h
      · split at h
        · exact .inr ⟨_, (Option.some.inj h).symm⟩
        · exact absurd h (by simp)
      · split at h
        · exact .inr ⟨_, (Option.some.inj h).symm⟩
        · exact .inl (Option.some.inj h).symm
    · exact .inl (Option.some.inj h).symm
  · exact .inl (Option.some.inj h).symm

theorem bodyWeightStep_writesTo (fs : Record) :
    WritesTo (bodyWeightStep fs) "weight" := by
  intro d d2 h
  rcases Option.map_eq_some.mp h with ⟨v, _, h2⟩
  exact .inr ⟨v, h2.symm⟩

theorem bodyRoundStep_writesTo (fs : Record) (src dst : String) :
    WritesTo (bodyRoundStep fs src dst) dst := by
  intro d d2 h
  unfold bodyRoundStep at h
  split at h
  · rcases Option.map_eq_some.mp h with ⟨v, _, h2⟩
    exact .inr ⟨v, h2.symm⟩
  · exact .inr ⟨_, (Option.some.inj h).symm⟩

theorem bodyDivRoundStep_writesTo (fs : Record) (src dst : String) :
    WritesTo (bodyDivRoundStep fs src dst) dst := by
  intro d d2 h
  unfold bodyDivRoundStep at h
  split at h
  · rcases Option.map_eq_some.mp h with ⟨v, _, h2⟩
    exact .inr ⟨v, h2.symm⟩
  · exact .inr ⟨_, (Option.some.inj h).symm⟩

theorem bodyVisceralStep_writesTo (fs : Record) :
    WritesTo (bodyVisceralStep fs) "visceralFat" := by
  intro d d2 h
  exact .inr ⟨_, (Option.some.inj h).symm⟩

/-! Frame lemmas: a section leaves every key outside its own write set
unchanged. -/

theorem statsBlock_frame (r : ApiResult) (hd : Record) {k : String}
    (h : k ∉ sectionKeys ApiSection.stats) :
    jget (statsBlock r hd) k = jget hd k := by
  simp only [sectionKeys, List.mem_cons, List.not_mem_nil, or_false, not_or] at h
  obtain ⟨h1, h2, h3, h4, h5, h6, h7, h8⟩ := h
  cases r with
  | exn => rfl
  | ok v =>
      cases v with
      | obj fs =>
          simp only [statsBlock]
          split
          · rfl
          · split
            · simp [jget_dictSet, h1, h2, h3, h4, h5, h6, h7]
            · split <;>
                simp [jget_dictSet, h1, h2, h3, h4, h5, h6, h7, h8]
      | null => rfl
      | bool b => rfl
      | num q => rfl
      | str s => rfl
      | arr xs => rfl

theorem hrvBlock_frame (r : ApiResult) (hd : Record) {k : String}
    (h : k ∉ sectionKeys ApiSection.hrv) :
    jget (hrvBlock r hd) k = jget hd k := by
  simp only [sectionKeys, List.mem_cons, List.not_mem_nil, or_false, not_or] at h
  cases r with
  | exn => rfl
  | ok v =>
      cases v with
      | obj fs =>
          simp only [hrvBlock]
          split
          · split <;> simp [jget_dictSet, h]
          · rfl
      | null => rfl
      | bool b => rfl
      | num q => rfl
      | str s => rfl
      | arr xs => rfl

theorem stressBlock_frame (r : ApiResult) (hd : Record) {k : String}
    (h : k ∉ sectionKeys ApiSection.stress) :
    jget (stressBlock r hd) k = jget hd k := by
  simp only [sectionKeys, List.mem_cons, List.not_mem_nil, or_false, not_or] at h
  cases r with
  | exn => rfl
  | ok v =>
      cases v with
      | obj fs =>
          simp only [stressBlock]
          split
          · rfl
          · simp [jget_dictSet, h]
      | null => rfl
      | bool b => rfl
      | num q => rfl
      | str s => rfl
      | arr xs => rfl

theorem sleepSets_frame (sf hd : Record) {k : String}
    (h : k ∉ sectionKeys ApiSection.sleep) :
    jget (sleepSets sf hd) k = jget hd k := by
  simp only [sectionKeys, List.mem_cons, List.not_mem_nil, or_false, not_or] at h
  obtain ⟨h1, h2, h3, h4, h5, h6, h7⟩ := h
  simp only [sleepSets]
  rw [tryStep_frame (sleepScoreStep_writesTo sf) h7,
      tryStep_frame (sleepAwakeCount_writesTo sf) h6,
      tryStep_frame (sleepStage_writesTo sf _ _) h5,
      tryStep_frame (sleepStage_writesTo sf _ _) h4,
      tryStep_frame (sleepStage_writesTo sf _ _) h3,
      tryStep_frame (sleepStage_writesTo sf _ _) h2,
      tryStep_frame (sleepStage_writesTo sf _ _) h1]

theorem sleepBlock_frame (r : ApiResult) (hd : Record) {k : String}
    (h : k ∉ sectionKeys ApiSection.sleep) :
    jget (sleepBlock r hd) k = jget hd k := by
  cases r with
  | exn => rfl
  | ok v =>
      cases v with
      | obj fs =>
          simp only [sleepBlock]
          split
          · split
            · rename_i sf _
              exact sleepSets_frame sf hd h
            all_goals rfl
          · rfl
      | null => rfl
      | bool b => rfl
      | num q => rfl
      | str s => rfl
      | arr xs => rfl

theorem respirationBlock_frame (r : ApiResult) (hd : Record) {k : String}
    (h : k ∉ sectionKeys ApiSection.respiration) :
    jget (respirationBlock r hd) k = jget hd k := by
  simp only [sectionKeys, List.mem_cons, List.not_mem_nil, or_false, not_or] at h
  cases r with
  | exn => rfl
  | ok v =>
      cases v with
      | obj fs =>
          simp only [respirationBlock]
          split
          · rfl
          · simp [jget_dictSet, h]
      | null => rfl
      | bool b => rfl
      | num q => rfl
      | str s => rfl
      | arr xs => rfl

theorem bodySets_frame (fs hd : Record) {k : String}
    (h : k ∉ sectionKeys ApiSection.body) :
    jget (bodySets fs hd) k = jget hd k := by
  simp only [sectionKeys, List.mem_cons, List.not_mem_nil, or_false, not_or] at h
  obtain ⟨h1, h2, h3, h4, h5, h6, h7⟩ := h
  simp only [bodySets]
  rw [tryStep_frame (bodyDivRoundStep_writesTo fs _ _) h7,
      tryStep_frame (bodyRoundStep_writesTo fs _ _) h6,
      tryStep_frame (bodyVisceralStep_writesTo fs) h5,
      tryStep_frame (bodyDivRoundStep_writesTo fs _ _) h4,
      tryStep_frame (bodyRoundStep_writesTo fs _ _) h3,
      tryStep_frame (bodyRoundStep_writesTo fs _ _) h2,
      tryStep_frame (bodyWeightStep_writesTo fs) h1]

theorem bodyBlock_frame (r : ApiResult) (hd : Record) {k : String}
    (h : k ∉ sectionKeys ApiSection.body) :
    jget (bodyBlock r hd) k = jget hd k := by
  cases r with
  | exn => rfl
  | ok v =>
      cases v with
      | obj fs =>
          simp only [bodyBlock]
          split
          · exact bodySets_frame fs hd h
          · rfl
      | null => rfl
      | bool b => rfl
      | num q => rfl
      | str s => rfl
      | arr xs => rfl

/-! Projections of `fetch_health_data` and skip lemmas: a section whose
accessor raised, or returned `None`, contributes nothing. -/

theorem fetch_fst (g : Garmin) (t : ℤ) (now : String) :
    (fetch_health_data g t now).1 =
      bodyBlock (g.get_body_composition (get_date_string t))
        (respirationBlock (g.get_respiration_data (get_date_string t))
          (sleepBlock (g.get_sleep_data (get_date_string t))
            (stressBlock (g.get_stress_data (get_date_string t))
              (hrvBlock (g.get_hrv_data (get_date_string t))
                (statsBlock (g.get_stats (get_date_string t))
                  (initRecord (get_date_string t) now)))))) := rfl

theorem fetch_snd (g : Garmin) (t : ℤ) (now : String) :
    (fetch_health_data g t now).2 = accessorCalls := rfl

theorem statsBlock_exn (hd : Record) : statsBlock .exn hd = hd := rfl

theorem hrvBlock_exn (hd : Record) : hrvBlock .exn hd = hd := rfl

theorem stressBlock_exn (hd : Record) : stressBlock .exn hd = hd := rfl

theorem sleepBlock_exn (hd : Record) : sleepBlock .exn hd = hd := rfl

theorem respirationBlock_exn (hd : Record) : respirationBlock .exn hd = hd := rfl

theorem bodyBlock_exn (hd : Record) : bodyBlock .exn hd = hd := rfl

theorem statsBlock_oknull (hd : Record) : statsBlock (.ok .null) hd = hd := rfl

theorem hrvBlock_oknull (hd : Record) : hrvBlock (.ok .null) hd = hd := rfl

theorem stressBlock_oknull (hd : Record) : stressBlock (.ok .null) hd = hd := rfl

theorem sleepBlock_oknull (hd : Record) : sleepBlock (.ok .null) hd = hd := rfl

theorem respirationBlock_oknull (hd : Record) :
    respirationBlock (.ok .null) hd = hd := rfl

theorem bodyBlock_oknull (hd : Record) : bodyBlock (.ok .null) hd = hd := rfl

/-- Claim C4, error handling. Each per-day API call is independently guarded:
when the accessor of one section raises, the exception is caught inside
`fetch_health_data`, every record field belonging to that section stays
`None`, and the rest of the computation is exactly what it would have been
with that accessor returning `None` (all remaining calls are still made and
processed; the trace of calls is unchanged by `fetch_snd`). -/
theorem C4_independent_guards (g : Garmin) (t : ℤ) (now : String)
    (s : ApiSection) (h : sectionResult g (get_date_string t) s = .exn) :
    (∀ k ∈ sectionKeys s, jget (fetch_health_data g t now).1 k = .null) ∧
    fetch_health_data g t now = fetch_health_data (sectionNulled g s) t now := by
  cases s with
  | stats =>
      simp only [sectionResult] at h
      refine ⟨?_, ?_⟩
      · intro k hk
        fin_cases hk <;>
          · rw [fetch_fst, bodyBlock_frame _ _ (by decide),
              respirationBlock_frame _ _ (by decide),
              sleepBlock_frame _ _ (by decide),
              stressBlock_frame _ _ (by decide),
              hrvBlock_frame _ _ (by decide), h, statsBlock_exn]
            rfl
      · simp only [fetch_health_data, sectionOrder, List.foldl_cons,
          List.foldl_nil, applySection, sectionNulled, h, statsBlock_exn, statsBlock_oknull]
  | hrv =>
      simp only [sectionResult] at h
      refine ⟨?_, ?_⟩
      · intro k hk
        fin_cases hk <;>
          · rw [fetch_fst, bodyBlock_frame _ _ (by decide),
              respirationBlock_frame _ _ (by decide),
              sleepBlock_frame _ _ (by decide),
              stressBlock_frame _ _ (by decide), h, hrvBlock_exn,
              statsBlock_frame _ _ (by decide)]
            rfl
      · simp only [fetch_health_data, sectionOrder, List.foldl_cons,
          List.foldl_nil, applySection, sectionNulled, h, hrvBlock_exn, hrvBlock_oknull]
  | stress =>
      simp only [sectionResult] at h
      refine ⟨?_, ?_⟩
      · intro k hk
        fin_cases hk <;>
          · rw [fetch_fst, bodyBlock_frame _ _ (by decide),
              respirationBlock_frame _ _ (by decide),
              sleepBlock_frame _ _ (by decide), h, stressBlock_exn,
              hrvBlock_frame _ _ (by decide), statsBlock_frame _ _ (by decide)]
            rfl
      · simp only [fetch_health_data, sectionOrder, List.foldl_cons,
          List.foldl_nil, applySection, sectionNulled, h, stressBlock_exn, stressBlock_oknull]
  | sleep =>
      simp only [sectionResult] at h
      refine ⟨?_, ?_⟩
      · intro k hk
        fin_cases hk <;>
          · rw [fetch_fst, bodyBlock_frame _ _ (by decide),
              respirationBlock_frame _ _ (by decide), h, sleepBlock_exn,
              stressBlock_frame _ _ (by decide),
              hrvBlock_frame _ _ (by decide), statsBlock_frame _ _ (by decide)]
            rfl
      · simp only [fetch_health_data, sectionOrder, List.foldl_cons,
          List.foldl_nil, applySection, sectionNulled, h, sleepBlock_exn, sleepBlock_oknull]
  | respiration =>
      simp only [sectionResult] at h
      refine ⟨?_, ?_⟩
      · intro k hk
        fin_cases hk <;>
          · rw [fetch_fst, bodyBlock_frame _ _ (by decide), h,
              respirationBlock_exn, sleepBlock_frame _ _ (by decide),
              stressBlock_frame _ _ (by decide),
              hrvBlock_frame _ _ (by decide), statsBlock_frame _ _ (by decide)]
            rfl
      · simp only [fetch_health_data, sectionOrder, List.foldl_cons,
          List.foldl_nil, applySection, sectionNulled, h, respirationBlock_exn, respirationBlock_oknull]
  | body =>
      simp only [sectionResult] at h
      refine ⟨?_, ?_⟩
      · intro k hk
        fin_cases hk <;>
          · rw [fetch_fst, h, bodyBlock_exn,
              respirationBlock_frame _ _ (by decide),
              sleepBlock_frame _ _ (by decide),
              stressBlock_frame _ _ (by decide),
              hrvBlock_frame _ _ (by decide), statsBlock_frame _ _ (by decide)]
            rfl
      · simp only [fetch_health_data, sectionOrder, List.foldl_cons,
          List.foldl_nil, applySection, sectionNulled, h, bodyBlock_exn, bodyBlock_oknull]

/-- Witness for C4 at a concrete client whose stats call raises. -/
theorem C4_independent_guards_witness :
    jget (fetch_health_data cAllExn 0 "t").1 "rhr" = .null ∧
    fetch_health_data cAllExn 0 "t" =
      fetch_health_data (sectionNulled cAllExn .stats) 0 "t" :=
  ⟨(C4_independent_guards cAllExn 0 "t" .stats rfl).1 "rhr" (by decide),
   (C4_independent_guards cAllExn 0 "t" .stats rfl).2⟩

/-! Call-order lemmas for `main`. -/

theorem count_login_flatten (g : Garmin) (now : String) (ds : List ℤ) :
    ((((ds.map (fun d => fetch_health_data g d now)).map Prod.snd).flatten).count
      ApiCall.login) = 0 := by
  induction ds with
  | nil => rfl
  | cons d rest ih =>
      simp only [List.map_cons, List.flatten_cons, List.count_append, ih,
        fetch_snd]
      rfl

/-- Claim C7, temporal. The per-day accessor calls are made in the fixed
source order stats, HRV, stress, sleep, respiration, body composition, with
none skipped, reordered or repeated, for every client and date; and on every
run of `main` that writes output, `login` is the first call of the trace and
occurs exactly once. -/
theorem C7_call_order :
    (∀ (g : Garmin) (t : ℤ) (now : String),
      (fetch_health_data g t now).2 = accessorCalls) ∧
    (∀ (env : Env) (g : Garmin) (now : String) (td : ℤ)
      (out : Record) (tr : List ApiCall),
      main env g now td = .wrote out tr →
      tr.head? = some .login ∧ tr.count .login = 1) := by
  refine ⟨fun g t now => fetch_snd g t now, ?_⟩
  intro env g now td out tr h
  unfold main at h
  split at h
  · exact absurd h (by simp)
  · split at h
    · exact absurd h (by simp)
    · have hdaily : ∀ (hh : runDaily g now td = .wrote out tr),
          tr.head? = some ApiCall.login ∧ tr.count ApiCall.login = 1 := by
        intro hh
        unfold runDaily at hh
        obtain ⟨-, rfl⟩ := MainResult.wrote.inj hh
        refine ⟨rfl, ?_⟩
        simp [List.count_cons, List.count_append, fetch_snd]
        rfl
      split at h
      · split at h
        · unfold runHistorical at h
          split at h
          · exact absurd h (by simp)
          · split at h
            · exact absurd h (by simp)
            · obtain ⟨-, rfl⟩ := MainResult.wrote.inj h
              refine ⟨rfl, ?_⟩
              simp only [List.count_cons]
              rw [count_login_flatten]
              rfl
        · exact hdaily h
      · exact hdaily h

/-- Witness for C7 on a concrete daily-mode run. -/
theorem C7_call_order_witness :
    (fetch_health_data cAllExn 0 "t").2 = accessorCalls ∧
    ((ApiCall.login :: ((fetch_health_data cAllExn 0 "t").2 ++
        (fetch_health_data cAllExn (-1) "t").2)).head? = some ApiCall.login ∧
      (ApiCall.login :: ((fetch_health_data cAllExn 0 "t").2 ++
        (fetch_health_data cAllExn (-1) "t").2)).count ApiCall.login = 1) :=
  ⟨C7_call_order.1 cAllExn 0 "t",
   C7_call_order.2 ⟨some "e", some "p", none, none⟩ cAllExn "t" 0 _ _ rfl⟩

/-- Claim C5, error handling. When `GARMIN_EMAIL` or `GARMIN_PASSWORD` is
unset or empty, `main` exits with status 1 before any HTTP call; when the
credentials are present but the login call raises, `main` exits with status 1
after the login call only. In both cases no accessor call is made and no
output is written (the result is `exited`, not `wrote`). -/
theorem C5_fatal_login (env : Env) (g : Garmin) (now : String) (td : ℤ) :
    (optTruthy env.email = false ∨ optTruthy env.password = false →
      main env g now td = .exited 1 []) ∧
    (optTruthy env.email = true → optTruthy env.password = true →
      g.loginOk = false → main env g now td = .exited 1 [.login]) := by
  constructor
  · intro h
    unfold main
    rcases h with h | h <;> simp [h]
  · intro h1 h2 h3
    unfold main
    simp [h1, h2, h3]

/-- Witness for C5: missing email, and failing login, at concrete inputs. -/
theorem C5_fatal_login_witness :
    main ⟨none, some "p", none, none⟩ cAllExn "t" 0 = .exited 1 [] ∧
    main ⟨some "e", some "p", none, none⟩
      { cAllExn with loginOk := false } "t" 0 = .exited 1 [.login] :=
  ⟨(C5_fatal_login ⟨none, some "p", none, none⟩ cAllExn "t" 0).1 (.inl rfl),
   (C5_fatal_login ⟨some "e", some "p", none, none⟩
      { cAllExn with loginOk := false } "t" 0).2 rfl rfl rfl⟩

/-! Lemmas on the date-range loop. -/

theorem dateRange_eq_nil {s e : ℤ} (h : ¬s ≤ e) : dateRange s e = [] := by
  rw [dateRange]
  exact dif_neg h

theorem dateRange_eq_cons {s e : ℤ} (h : s ≤ e) :
    dateRange s e = s :: dateRange (s + 1) e := by
  rw [dateRange]
  exact dif_pos h

theorem dateRange_length_aux :
    ∀ (n : ℕ) (s e : ℤ), (e + 1 - s).toNat = n → (dateRange s e).length = n := by
  intro n
  induction n with
  | zero =>
      intro s e h
      rw [dateRange_eq_nil (by omega)]
      rfl
  | succ k ih =>
      intro s e h
      rw [dateRange_eq_cons (by omega), List.length_cons, ih (s + 1) e (by omega)]

theorem dateRange_length (s e : ℤ) :
    (dateRange s e).length = (e + 1 - s).toNat :=
  dateRange_length_aux _ s e rfl

theorem mem_dateRange_aux :
    ∀ (n : ℕ) (s e d : ℤ), (e + 1 - s).toNat = n →
      (d ∈ dateRange s e ↔ s ≤ d ∧ d ≤ e) := by
  intro n
  induction n with
  | zero =>
      intro s e d h
      rw [dateRange_eq_nil (by omega)]
      simp only [List.not_mem_nil, false_iff]
      omega
  | succ k ih =>
      intro s e d h
      rw [dateRange_eq_cons (by omega), List.mem_cons, ih (s + 1) e d (by omega)]
      omega

theorem mem_dateRange {s e d : ℤ} : d ∈ dateRange s e ↔ s ≤ d ∧ d ≤ e :=
  mem_dateRange_aux _ s e d rfl

theorem dateRange_sorted_aux :
    ∀ (n : ℕ) (s e : ℤ), (e + 1 - s).toNat = n →
      (dateRange s e).Pairwise (· < ·) := by
  intro n
  induction n with
  | zero =>
      intro s e h
      rw [dateRange_eq_nil (by omega)]
      exact List.Pairwise.nil
  | succ k ih =>
      intro s e h
      rw [dateRange_eq_cons (by omega)]
      refine List.Pairwise.cons ?_ (ih (s + 1) e (by omega))
      intro b hb
      have := (mem_dateRange_aux k (s + 1) e b (by omega)).mp hb
      omega

theorem dateRange_sorted (s e : ℤ) : (dateRange s e).Pairwise (· < ·) :=
  dateRange_sorted_aux _ s e rfl

/-- The `date` field of every fetched record is the formatted target date. -/
theorem fetch_date (g : Garmin) (t : ℤ) (now : String) :
    jget (fetch_health_data g t now).1 "date" = .str (get_date_string t) := by
  rw [fetch_fst, bodyBlock_frame _ _ (by decide),
    respirationBlock_frame _ _ (by decide), sleepBlock_frame _ _ (by decide),
    stressBlock_frame _ _ (by decide), hrvBlock_frame _ _ (by decide),
    statsBlock_frame _ _ (by decide)]
  rfl

/-- Claim C3, functional correctness. In historical mode with parseable
`START_DATE <= END_DATE`, the run writes a history with exactly one record
per calendar day of the closed interval, in ascending date order, of length
`END_DATE - START_DATE + 1`, each record carrying its own formatted date. -/
theorem C3_inclusive_range (env : Env) (g : Garmin) (now : String) (td : ℤ)
    (S E : String) (ds de : ℤ)
    (hS : env.start_date_str = some S) (hE : env.end_date_str = some E)
    (hSne : S ≠ "") (hEne : E ≠ "")
    (hps : parse_date S = some ds) (hpe : parse_date E = some de)
    (hle : ds ≤ de)
    (hem : optTruthy env.email = true) (hpw : optTruthy env.password = true)
    (hlog : g.loginOk = true) :
    main env g now td =
      .wrote (histOutput now S E
          ((dateRange ds de).map (fun d => (fetch_health_data g d now).1)))
        (.login :: ((dateRange ds de).map
          (fun d => (fetch_health_data g d now).2)).flatten) ∧
    (dateRange ds de).length = (de + 1 - ds).toNat ∧
    (∀ d : ℤ, d ∈ dateRange ds de ↔ ds ≤ d ∧ d ≤ de) ∧
    (dateRange ds de).Pairwise (· < ·) ∧
    (∀ d ∈ dateRange ds de,
      jget (fetch_health_data g d now).1 "date" = .str (get_date_string d)) := by
  refine ⟨?_, dateRange_length ds de, fun d => mem_dateRange,
    dateRange_sorted ds de, fun d _ => fetch_date g d now⟩
  unfold main
  simp only [hem, hpw, hlog, Bool.not_true, Bool.or_self, Bool.false_eq_true,
    if_false, hS, hE]
  have hcond : (S != "" && E != "") = true := by
    simp [hSne, hEne]
  rw [if_pos hcond]
  unfold runHistorical
  rw [hps, hpe]
  simp [List.map_map, Function.comp_def]

/-- Witness for C3 on the concrete range 2024-01-01 to 2024-01-03. -/
theorem C3_inclusive_range_witness :
    main ⟨some "e", some "p", some "2024-01-01", some "2024-01-03"⟩
        cAllExn "t" 0 =
      .wrote (histOutput "t" "2024-01-01" "2024-01-03"
          ((dateRange 19723 19725).map
            (fun d => (fetch_health_data cAllExn d "t").1)))
        (.login :: ((dateRange 19723 19725).map
          (fun d => (fetch_health_data cAllExn d "t").2)).flatten) ∧
    (dateRange 19723 19725).length = 3 ∧
    (2024 ≤ 2024) := by
  have h := C3_inclusive_range
    ⟨some "e", some "p", some "2024-01-01", some "2024-01-03"⟩
    cAllExn "t" 0 "2024-01-01" "2024-01-03" 19723 19725
    rfl rfl (by decide) (by decide) (by decide) (by decide) (by decide)
    rfl rfl rfl
  exact ⟨h.1, h.2.1, by decide⟩

/-- Claim C2, invariants. Every run that reaches the output-writing step
produces a document containing the top-level keys lastSync, mode, today,
yesterday and history; in historical mode today and yesterday are `None` and
history holds the per-date records; in daily mode today and yesterday hold
day records and history is the empty list. -/
theorem C2_output_keys (env : Env) (g : Garmin) (now : String) (td : ℤ)
    (out : Record) (tr : List ApiCall)
    (h : main env g now td = .wrote out tr) :
    containsKey out "lastSync" = true ∧ containsKey out "mode" = true ∧
    containsKey out "today" = true ∧ containsKey out "yesterday" = true ∧
    containsKey out "history" = true ∧
    (jget out "mode" = .str "historical" →
      jget out "today" = .null ∧ jget out "yesterday" = .null ∧
      ∃ ds de : ℤ, jget out "history" =
        .arr ((dateRange ds de).map
          (fun d => JVal.obj (fetch_health_data g d now).1))) ∧
    (jget out "mode" = .str "daily" →
      jget out "today" = .obj (fetch_health_data g td now).1 ∧
      jget out "yesterday" = .obj (fetch_health_data g (td - 1) now).1 ∧
      jget out "history" = .arr []) := by
  have hdaily : runDaily g now td = .wrote out tr →
      (containsKey out "lastSync" = true ∧ containsKey out "mode" = true ∧
      containsKey out "today" = true ∧ containsKey out "yesterday" = true ∧
      containsKey out "history" = true ∧
      (jget out "mode" = .str "historical" →
        jget out "today" = .null ∧ jget out "yesterday" = .null ∧
        ∃ ds de : ℤ, jget out "history" =
          .arr ((dateRange ds de).map
            (fun d => JVal.obj (fetch_health_data g d now).1))) ∧
      (jget out "mode" = .str "daily" →
        jget out "today" = .obj (fetch_health_data g td now).1 ∧
        jget out "yesterday" = .obj (fetch_health_data g (td - 1) now).1 ∧
        jget out "history" = .arr [])) := by
    intro hh
    unfold runDaily at hh
    obtain ⟨rfl, -⟩ := MainResult.wrote.inj hh
    refine ⟨rfl, rfl, rfl, rfl, rfl, ?_, fun _ => ⟨rfl, rfl, rfl⟩⟩
    intro hmode
    exact absurd hmode (by simp [dailyOutput, jget])
  unfold main at h
  split at h
  · exact absurd h (by simp)
  · split at h
    · exact absurd h (by simp)
    · split at h
      · split at h
        · unfold runHistorical at h
          split at h
          · exact absurd h (by simp)
          · split at h
            · exact absurd h (by simp)
            · rename_i x1 ds hds x2 de hde
              obtain ⟨rfl, -⟩ := MainResult.wrote.inj h
              refine ⟨rfl, rfl, rfl, rfl, rfl, ?_, ?_⟩
              · intro _
                refine ⟨rfl, rfl, ds, de, ?_⟩
                show JVal.arr _ = _
                rw [List.map_map, List.map_map]
                rfl
              · intro hmode
                exact absurd hmode (by simp [histOutput, jget])
        · exact hdaily h
      · exact hdaily h

/-- Witness for C2 on a concrete daily-mode run. -/
theorem C2_output_keys_witness :
    containsKey (dailyOutput "t" (fetch_health_data cAllExn 0 "t").1
      (fetch_health_data cAllExn (-1) "t").1) "lastSync" = true ∧
    jget (dailyOutput "t" (fetch_health_data cAllExn 0 "t").1
      (fetch_health_data cAllExn (-1) "t").1) "history" = .arr [] :=
  ⟨(C2_output_keys envDaily cAllExn "t" 0 _ _ rfl).1,
   ((C2_output_keys envDaily cAllExn "t" 0 _ _ rfl).2.2.2.2.2.2 rfl).2.2⟩

/-- Claim C8, functional correctness. A run that writes output is in
historical mode exactly when both `START_DATE` and `END_DATE` are set and
non-empty; when exactly one of the two is set it is silently ignored and the
run is a daily run fetching today and yesterday. -/
theorem C8_mode_iff (env : Env) (g : Garmin) (now : String) (td : ℤ) :
    (∀ (out : Record) (tr : List ApiCall), main env g now td = .wrote out tr →
      (jget out "mode" = .str "historical" ↔
        optTruthy env.start_date_str = true ∧
        optTruthy env.end_date_str = true)) ∧
    ((optTruthy env.start_date_str = true ∧ optTruthy env.end_date_str = false) ∨
      (optTruthy env.start_date_str = false ∧ optTruthy env.end_date_str = true) →
      optTruthy env.email = true → optTruthy env.password = true →
      g.loginOk = true →
      main env g now td =
        .wrote (dailyOutput now (fetch_health_data g td now).1
            (fetch_health_data g (td - 1) now).1)
          (.login :: ((fetch_health_data g td now).2 ++
            (fetch_health_data g (td - 1) now).2))) := by
  constructor
  · intro out tr h
    unfold main at h
    split at h
    · exact absurd h (by simp)
    · split at h
      · exact absurd h (by simp)
      · split at h
        · rename_i sv ev hsv hev
          split at h
          · rename_i hcond
            unfold runHistorical at h
            split at h
            · exact absurd h (by simp)
            · split at h
              · exact absurd h (by simp)
              · obtain ⟨rfl, -⟩ := MainResult.wrote.inj h
                simp only [Bool.and_eq_true, bne_iff_ne, ne_eq] at hcond
                refine iff_of_true rfl ?_
                rw [hsv, hev]
                simp only [optTruthy, bne_iff_ne, ne_eq]
                exact ⟨by simpa using hcond.1, by simpa using hcond.2⟩
          · rename_i hcond
            unfold runDaily at h
            obtain ⟨rfl, -⟩ := MainResult.wrote.inj h
            refine iff_of_false (by simp [dailyOutput, jget]) ?_
            rw [hsv, hev]
            rintro ⟨h1, h2⟩
            simp only [optTruthy] at h1 h2
            simp [h1, h2] at hcond
        · rename_i hno
          unfold runDaily at h
          obtain ⟨rfl, -⟩ := MainResult.wrote.inj h
          refine iff_of_false (by simp [dailyOutput, jget]) ?_
          rintro ⟨h1, h2⟩
          rcases hsv : env.start_date_str with - | sv
          · rw [hsv] at h1
            exact absurd h1 (by simp [optTruthy])
          · rcases hev : env.end_date_str with - | ev
            · rw [hev] at h2
              exact absurd h2 (by simp [optTruthy])
            · exact hno sv ev hsv hev
  · intro hxor hem hpw hlog
    obtain ⟨em, pw, sd, ed⟩ := env
    simp only [main, hem, hpw, hlog, Bool.not_true, Bool.or_self,
      Bool.false_eq_true, if_false]
    cases sd with
    | none =>
        cases ed with
        | none => rfl
        | some e => rfl
    | some sv =>
        cases ed with
        | none => rfl
        | some ev =>
            have hc : (sv != "" && ev != "") = false := by
              rcases hxor with ⟨-, h2⟩ | ⟨h1, -⟩
              · simp only [optTruthy] at h2
                simp [h2]
              · simp only [optTruthy] at h1
                simp [h1]
            simp only [hc, Bool.false_eq_true, if_false]
            rfl

/-- Witness for C8: END_DATE set without START_DATE is ignored. -/
theorem C8_mode_iff_witness :
    (jget (dailyOutput "t" (fetch_health_data cAllExn 0 "t").1
        (fetch_health_data cAllExn (-1) "t").1) "mode" = .str "historical" ↔
      optTruthy (none : Option String) = true ∧
      optTruthy (some "2024-01-01") = true) ∧
    main ⟨some "e", some "p", none, some "2024-01-01"⟩ cAllExn "t" 0 =
      .wrote (dailyOutput "t" (fetch_health_data cAllExn 0 "t").1
          (fetch_health_data cAllExn (-1) "t").1)
        (.login :: ((fetch_health_data cAllExn 0 "t").2 ++
          (fetch_health_data cAllExn (-1) "t").2)) :=
  ⟨(C8_mode_iff ⟨some "e", some "p", none, some "2024-01-01"⟩
      cAllExn "t" 0).1 _ _ rfl,
   (C8_mode_iff ⟨some "e", some "p", none, some "2024-01-01"⟩
      cAllExn "t" 0).2 (.inr ⟨rfl, rfl⟩) rfl rfl rfl⟩

/-! Characterisation of the stats section. -/

theorem statsBlock_notEntered (r : ApiResult) (hd : Record)
    (h : entered r = false) : statsBlock r hd = hd := by
  cases r with
  | exn => rfl
  | ok v =>
      cases v with
      | obj fs =>
          have h2 : fs.isEmpty = true := by simpa [entered] using h
          simp [statsBlock, h2]
      | null => rfl
      | bool b => rfl
      | num q => rfl
      | str s => rfl
      | arr xs => rfl

theorem statsBlock_fields (fs hd : Record) (he : fs.isEmpty = false) :
    jget (statsBlock (.ok (.obj fs)) hd) "rhr" = jget fs "restingHeartRate" ∧
    jget (statsBlock (.ok (.obj fs)) hd) "steps" = jget fs "totalSteps" ∧
    jget (statsBlock (.ok (.obj fs)) hd) "floors" = jget fs "floorsClimbed" ∧
    jget (statsBlock (.ok (.obj fs)) hd) "calories" =
      jget fs "totalKilocalories" ∧
    jget (statsBlock (.ok (.obj fs)) hd) "activeCalories" =
      jget fs "activeKilocalories" ∧
    jget (statsBlock (.ok (.obj fs)) hd) "intensityMinutesModerate" =
      pyOr (jget fs "moderateIntensityMinutes") (.num 0) ∧
    jget (statsBlock (.ok (.obj fs)) hd) "intensityMinutesVigorous" =
      pyOr (jget fs "vigorousIntensityMinutes") (.num 0) := by
  simp only [statsBlock, he, Bool.false_eq_true, if_false]
  split
  · refine ⟨?_, ?_, ?_, ?_, ?_, ?_, ?_⟩ <;> simp [jget_dictSet]
  · split <;> (refine ⟨?_, ?_, ?_, ?_, ?_, ?_, ?_⟩ <;> simp [jget_dictSet])

theorem statsBlock_intensity (fs hd : Record) (he : fs.isEmpty = false) :
    jget (statsBlock (.ok (.obj fs)) hd) "intensityMinutes" =
      (match pyTimesTwo (pyOr (jget fs "vigorousIntensityMinutes") (.num 0)) with
      | none => jget hd "intensityMinutes"
      | some v2 =>
          match pyAdd (pyOr (jget fs "moderateIntensityMinutes") (.num 0)) v2 with
          | none => jget hd "intensityMinutes"
          | some s => s) := by
  simp only [statsBlock, he, Bool.false_eq_true, if_false]
  split
  · simp [jget_dictSet]
  · split <;> simp [jget_dictSet]

theorem statsBlock_rhr_null (r : ApiResult) (hd : Record)
    (h0 : jget hd "rhr" = .null)
    (h : ∀ fs, r = .ok (.obj fs) → containsKey fs "restingHeartRate" = false) :
    jget (statsBlock r hd) "rhr" = .null := by
  cases r with
  | exn => exact h0
  | ok v =>
      cases v with
      | obj fs =>
          cases he : fs.isEmpty with
          | true => simpa [statsBlock, he] using h0
          | false =>
              rw [(statsBlock_fields fs hd he).1,
                jget_eq_null_of_containsKey fs _ (h fs rfl)]
      | null => exact h0
      | bool b => exact h0
      | num q => exact h0
      | str s => exact h0
      | arr xs => exact h0

theorem statsBlock_steps_null (r : ApiResult) (hd : Record)
    (h0 : jget hd "steps" = .null)
    (h : ∀ fs, r = .ok (.obj fs) → containsKey fs "totalSteps" = false) :
    jget (statsBlock r hd) "steps" = .null := by
  cases r with
  | exn => exact h0
  | ok v =>
      cases v with
      | obj fs =>
          cases he : fs.isEmpty with
          | true => simpa [statsBlock, he] using h0
          | false =>
              rw [(statsBlock_fields fs hd he).2.1,
                jget_eq_null_of_containsKey fs _ (h fs rfl)]
      | null => exact h0
      | bool b => exact h0
      | num q => exact h0
      | str s => exact h0
      | arr xs => exact h0

theorem statsBlock_floors_null (r : ApiResult) (hd : Record)
    (h0 : jget hd "floors" = .null)
    (h : ∀ fs, r = .ok (.obj fs) → containsKey fs "floorsClimbed" = false) :
    jget (statsBlock r hd) "floors" = .null := by
  cases r with
  | exn => exact h0
  | ok v =>
      cases v with
      | obj fs =>
          cases he : fs.isEmpty with
          | true => simpa [statsBlock, he] using h0
          | false =>
              rw [(statsBlock_fields fs hd he).2.2.1,
                jget_eq_null_of_containsKey fs _ (h fs rfl)]
      | null => exact h0
      | bool b => exact h0
      | num q => exact h0
      | str s => exact h0
      | arr xs => exact h0

theorem statsBlock_calories_null (r : ApiResult) (hd : Record)
    (h0 : jget hd "calories" = .null)
    (h : ∀ fs, r = .ok (.obj fs) → containsKey fs "totalKilocalories" = false) :
    jget (statsBlock r hd) "calories" = .null := by
  cases r with
  | exn => exact h0
  | ok v =>
      cases v with
      | obj fs =>
          cases he : fs.isEmpty with
          | true => simpa [statsBlock, he] using h0
          | false =>
              rw [(statsBlock_fields fs hd he).2.2.2.1,
                jget_eq_null_of_containsKey fs _ (h fs rfl)]
      | null => exact h0
      | bool b => exact h0
      | num q => exact h0
      | str s => exact h0
      | arr xs => exact h0

theorem statsBlock_activeCalories_null (r : ApiResult) (hd : Record)
    (h0 : jget hd "activeCalories" = .null)
    (h : ∀ fs, r = .ok (.obj fs) → containsKey fs "activeKilocalories" = false) :
    jget (statsBlock r hd) "activeCalories" = .null := by
  cases r with
  | exn => exact h0
  | ok v =>
      cases v with
      | obj fs =>
          cases he : fs.isEmpty with
          | true => simpa [statsBlock, he] using h0
          | false =>
              rw [(statsBlock_fields fs hd he).2.2.2.2.1,
                jget_eq_null_of_containsKey fs _ (h fs rfl)]
      | null => exact h0
      | bool b => exact h0
      | num q => exact h0
      | str s => exact h0
      | arr xs => exact h0

theorem statsBlock_intensity_missing (fs hd : Record) (he : fs.isEmpty = false)
    (hm : containsKey fs "moderateIntensityMinutes" = false)
    (hv : containsKey fs "vigorousIntensityMinutes" = false) :
    jget (statsBlock (.ok (.obj fs)) hd) "intensityMinutesModerate" = .num 0 ∧
    jget (statsBlock (.ok (.obj fs)) hd) "intensityMinutesVigorous" = .num 0 ∧
    jget (statsBlock (.ok (.obj fs)) hd) "intensityMinutes" = .num 0 := by
  have hm2 : pyOr (jget fs "moderateIntensityMinutes") (.num 0) = .num 0 := by
    rw [jget_eq_null_of_containsKey fs _ hm]
    rfl
  have hv2 : pyOr (jget fs "vigorousIntensityMinutes") (.num 0) = .num 0 := by
    rw [jget_eq_null_of_containsKey fs _ hv]
    rfl
  refine ⟨by rw [(statsBlock_fields fs hd he).2.2.2.2.2.1, hm2],
    by rw [(statsBlock_fields fs hd he).2.2.2.2.2.2, hv2], ?_⟩
  rw [statsBlock_intensity fs hd he, hm2, hv2]
  show (match pyAdd (JVal.num 0) (.num (2 * 0)) with
    | none => jget hd "intensityMinutes"
    | some s => s) = JVal.num 0
  show JVal.num (0 + 2 * 0) = JVal.num 0
  norm_num

theorem hrvBlock_null (r : ApiResult) (hd : Record)
    (h0 : jget hd "hrv" = .null)
    (h : ∀ fs hs, r = .ok (.obj fs) → jget fs "hrvSummary" = .obj hs →
      containsKey hs "lastNightAvg" = false ∧
      containsKey hs "weeklyAvg" = false) :
    jget (hrvBlock r hd) "hrv" = .null := by
  cases r with
  | exn => exact h0
  | ok v =>
      cases v with
      | obj fs =>
          simp only [hrvBlock]
          split
          · cases hsum : jget fs "hrvSummary" with
            | obj hs =>
                obtain ⟨h1, h2⟩ := h fs hs rfl hsum
                simp only [hsum, jget_dictSet_same]
                rw [jget_eq_null_of_containsKey hs _ h1,
                  jget_eq_null_of_containsKey hs _ h2]
                rfl
            | null => simp only [hsum]; exact h0
            | bool b => simp only [hsum]; exact h0
            | num q => simp only [hsum]; exact h0
            | str s => simp only [hsum]; exact h0
            | arr xs => simp only [hsum]; exact h0
          · exact h0
      | null => exact h0
      | bool b => exact h0
      | num q => exact h0
      | str s => exact h0
      | arr xs => exact h0

theorem stressBlock_null (r : ApiResult) (hd : Record)
    (h0 : jget hd "stressAvg" = .null)
    (h : ∀ fs, r = .ok (.obj fs) → containsKey fs "avgStressLevel" = false) :
    jget (stressBlock r hd) "stressAvg" = .null := by
  cases r with
  | exn => exact h0
  | ok v =>
      cases v with
      | obj fs =>
          simp only [stressBlock]
          split
          · exact h0
          · rw [jget_dictSet_same, jget_eq_null_of_containsKey fs _ (h fs rfl)]
      | null => exact h0
      | bool b => exact h0
      | num q => exact h0
      | str s => exact h0
      | arr xs => exact h0

theorem respirationBlock_null (r : ApiResult) (hd : Record)
    (h0 : jget hd "respiration" = .null)
    (h : ∀ fs, r = .ok (.obj fs) →
      containsKey fs "avgWakingRespirationValue" = false ∧
      containsKey fs "avgSleepRespirationValue" = false) :
    jget (respirationBlock r hd) "respiration" = .null := by
  cases r with
  | exn => exact h0
  | ok v =>
      cases v with
      | obj fs =>
          simp only [respirationBlock]
          split
          · exact h0
          · obtain ⟨h1, h2⟩ := h fs rfl
            rw [jget_dictSet_same, jget_eq_null_of_containsKey fs _ h1,
              jget_eq_null_of_containsKey fs _ h2]
            rfl
      | null => exact h0
      | bool b => exact h0
      | num q => exact h0
      | str s => exact h0
      | arr xs => exact h0

/-! Null propagation through the sleep section. -/

theorem sleepStage_skip (sf : Record) (src dst : String)
    (h : truthy (jget sf src) = false) (d : Record) :
    sleepStage sf src dst d = some d := by
  unfold sleepStage
  rw [h]
  simp

theorem sleepScoreStep_skip (sf : Record)
    (h : containsKey sf "sleepScores" = false) (d : Record) :
    sleepScoreStep sf d = some d := by
  unfold sleepScoreStep
  rw [h]
  simp

theorem sleepAwakeCount_keepsNull (sf : Record)
    (h : containsKey sf "awakeCount" = false) :
    KeepsNull (sleepAwakeCount sf) "sleepInterruptions" := by
  intro d d2 hfd _
  unfold sleepAwakeCount at hfd
  rw [← Option.some.inj hfd, jget_dictSet_same,
    jget_eq_null_of_containsKey sf _ h]

theorem sleepSets_duration_null (sf hd : Record)
    (h0 : jget hd "sleepDuration" = .null)
    (h : containsKey sf "sleepTimeSeconds" = false) :
    jget (sleepSets sf hd) "sleepDuration" = .null := by
  have ht : truthy (jget sf "sleepTimeSeconds") = false := by
    rw [jget_eq_null_of_containsKey sf _ h]
    rfl
  simp only [sleepSets]
  rw [tryStep_frame (sleepScoreStep_writesTo sf) (by decide),
    tryStep_frame (sleepAwakeCount_writesTo sf) (by decide),
    tryStep_frame (sleepStage_writesTo sf _ _) (by decide),
    tryStep_frame (sleepStage_writesTo sf _ _) (by decide),
    tryStep_frame (sleepStage_writesTo sf _ _) (by decide),
    tryStep_frame (sleepStage_writesTo sf _ _) (by decide),
    tryStep_id (sleepStage_skip sf _ _ ht)]
  exact h0

theorem sleepSets_deep_null (sf hd : Record)
    (h0 : jget hd "sleepDeep" = .null)
    (h : containsKey sf "deepSleepSeconds" = false) :
    jget (sleepSets sf hd) "sleepDeep" = .null := by
  have ht : truthy (jget sf "deepSleepSeconds") = false := by
    rw [jget_eq_null_of_containsKey sf _ h]
    rfl
  simp only [sleepSets]
  rw [tryStep_frame (sleepScoreStep_writesTo sf) (by decide),
    tryStep_frame (sleepAwakeCount_writesTo sf) (by decide),
    tryStep_frame (sleepStage_writesTo sf _ _) (by decide),
    tryStep_frame (sleepStage_writesTo sf _ _) (by decide),
    tryStep_frame (sleepStage_writesTo sf _ _) (by decide),
    tryStep_id (sleepStage_skip sf _ _ ht),
    tryStep_frame (sleepStage_writesTo sf _ _) (by decide)]
  exact h0

theorem sleepSets_light_null (sf hd : Record)
    (h0 : jget hd "sleepLight" = .null)
    (h : containsKey sf "lightSleepSeconds" = false) :
    jget (sleepSets sf hd) "sleepLight" = .null := by
  have ht : truthy (jget sf "lightSleepSeconds") = false := by
    rw [jget_eq_null_of_containsKey sf _ h]
    rfl
  simp only [sleepSets]
  rw [tryStep_frame (sleepScoreStep_writesTo sf) (by decide),
    tryStep_frame (sleepAwakeCount_writesTo sf) (by decide),
    tryStep_frame (sleepStage_writesTo sf _ _) (by decide),
    tryStep_frame (sleepStage_writesTo sf _ _) (by decide),
    tryStep_id (sleepStage_skip sf _ _ ht),
    tryStep_frame (sleepStage_writesTo sf _ _) (by decide),
    tryStep_frame (sleepStage_writesTo sf _ _) (by decide)]
  exact h0

theorem sleepSets_rem_null (sf hd : Record)
    (h0 : jget hd "sleepRem" = .null)
    (h : containsKey sf "remSleepSeconds" = false) :
    jget (sleepSets sf hd) "sleepRem" = .null := by
  have ht : truthy (jget sf "remSleepSeconds") = false := by
    rw [jget_eq_null_of_containsKey sf _ h]
    rfl
  simp only [sleepSets]
  rw [tryStep_frame (sleepScoreStep_writesTo sf) (by decide),
    tryStep_frame (sleepAwakeCount_writesTo sf) (by decide),
    tryStep_frame (sleepStage_writesTo sf _ _) (by decide),
    tryStep_id (sleepStage_skip sf _ _ ht),
    tryStep_frame (sleepStage_writesTo sf _ _) (by decide),
    tryStep_frame (sleepStage_writesTo sf _ _) (by decide),
    tryStep_frame (sleepStage_writesTo sf _ _) (by decide)]
  exact h0

theorem sleepSets_awake_null (sf hd : Record)
    (h0 : jget hd "sleepAwake" = .null)
    (h : containsKey sf "awakeSleepSeconds" = false) :
    jget (sleepSets sf hd) "sleepAwake" = .null := by
  have ht : truthy (jget sf "awakeSleepSeconds") = false := by
    rw [jget_eq_null_of_containsKey sf _ h]
    rfl
  simp only [sleepSets]
  rw [tryStep_frame (sleepScoreStep_writesTo sf) (by decide),
    tryStep_frame (sleepAwakeCount_writesTo sf) (by decide),
    tryStep_id (sleepStage_skip sf _ _ ht),
    tryStep_frame (sleepStage_writesTo sf _ _) (by decide),
    tryStep_frame (sleepStage_writesTo sf _ _) (by decide),
    tryStep_frame (sleepStage_writesTo sf _ _) (by decide),
    tryStep_frame (sleepStage_writesTo sf _ _) (by decide)]
  exact h0

theorem sleepSets_interruptions_null (sf hd : Record)
    (h0 : jget hd "sleepInterruptions" = .null)
    (h : containsKey sf "awakeCount" = false) :
    jget (sleepSets sf hd) "sleepInterruptions" = .null := by
  simp only [sleepSets]
  rw [tryStep_frame (sleepScoreStep_writesTo sf) (by decide)]
  refine tryStep_null (sleepAwakeCount_keepsNull sf h) _ ?_
  rw [tryStep_frame (sleepStage_writesTo sf _ _) (by decide),
    tryStep_frame (sleepStage_writesTo sf _ _) (by decide),
    tryStep_frame (sleepStage_writesTo sf _ _) (by decide),
    tryStep_frame (sleepStage_writesTo sf _ _) (by decide),
    tryStep_frame (sleepStage_writesTo sf _ _) (by decide)]
  exact h0

theorem sleepSets_score_null (sf hd : Record)
    (h0 : jget hd "sleepScore" = .null)
    (h : containsKey sf "sleepScores" = false) :
    jget (sleepSets sf hd) "sleepScore" = .null := by
  simp only [sleepSets]
  rw [tryStep_id (sleepScoreStep_skip sf h),
    tryStep_frame (sleepAwakeCount_writesTo sf) (by decide),
    tryStep_frame (sleepStage_writesTo sf _ _) (by decide),
    tryStep_frame (sleepStage_writesTo sf _ _) (by decide),
    tryStep_frame (sleepStage_writesTo sf _ _) (by decide),
    tryStep_frame (sleepStage_writesTo sf _ _) (by decide),
    tryStep_frame (sleepStage_writesTo sf _ _) (by decide)]
  exact h0

theorem sleepBlock_null (r : ApiResult) (hd : Record) (k : String)
    (h0 : jget hd k = .null)
    (hs : ∀ fs sf, r = .ok (.obj fs) → jget fs "dailySleepDTO" = .obj sf →
      jget (sleepSets sf hd) k = .null) :
    jget (sleepBlock r hd) k = .null := by
  cases r with
  | exn => exact h0
  | ok v =>
      cases v with
      | obj fs =>
          simp only [sleepBlock]
          split
          · cases hdto : jget fs "dailySleepDTO" with
            | obj sf =>
                simp only [hdto]
                exact hs fs sf rfl hdto
            | null => simp only [hdto]; exact h0
            | bool b => simp only [hdto]; exact h0
            | num q => simp only [hdto]; exact h0
            | str s => simp only [hdto]; exact h0
            | arr xs => simp only [hdto]; exact h0
          · exact h0
      | null => exact h0
      | bool b => exact h0
      | num q => exact h0
      | str s => exact h0
      | arr xs => exact h0

/-! Null propagation through the body-composition section. -/

theorem bodyBlock_notEntered (r : ApiResult) (hd : Record)
    (h : bodyEntered r = false) : bodyBlock r hd = hd := by
  cases r with
  | exn => rfl
  | ok v =>
      cases v with
      | obj fs =>
          simp only [bodyEntered] at h
          simp [bodyBlock, h]
      | null => rfl
      | bool b => rfl
      | num q => rfl
      | str s => rfl
      | arr xs => rfl

theorem bodyRoundStep_keepsNull (fs : Record) (src dst : String)
    (h : truthy (jget fs src) = false) :
    KeepsNull (bodyRoundStep fs src dst) dst := by
  intro d d2 hfd _
  unfold bodyRoundStep at hfd
  rw [h] at hfd
  simp only [Bool.false_eq_true, if_false] at hfd
  rw [← Option.some.inj hfd, jget_dictSet_same]

theorem bodyDivRoundStep_keepsNull (fs : Record) (src dst : String)
    (h : truthy (jget fs src) = false) :
    KeepsNull (bodyDivRoundStep fs src dst) dst := by
  intro d d2 hfd _
  unfold bodyDivRoundStep at hfd
  rw [h] at hfd
  simp only [Bool.false_eq_true, if_false] at hfd
  rw [← Option.some.inj hfd, jget_dictSet_same]

theorem bodyVisceralStep_keepsNull (fs : Record)
    (h : containsKey fs "visceralFat" = false) :
    KeepsNull (bodyVisceralStep fs) "visceralFat" := by
  intro d d2 hfd _
  unfold bodyVisceralStep at hfd
  rw [← Option.some.inj hfd, jget_dictSet_same,
    jget_eq_null_of_containsKey fs _ h]

theorem bodySets_bmi_null (fs hd : Record)
    (h0 : jget hd "bmi" = .null)
    (h : containsKey fs "bmi" = false) :
    jget (bodySets fs hd) "bmi" = .null := by
  have ht : truthy (jget fs "bmi") = false := by
    rw [jget_eq_null_of_containsKey fs _ h]
    rfl
  simp only [bodySets]
  rw [tryStep_frame (bodyDivRoundStep_writesTo fs _ _) (by decide),
    tryStep_frame (bodyRoundStep_writesTo fs _ _) (by decide),
    tryStep_frame (bodyVisceralStep_writesTo fs) (by decide),
    tryStep_frame (bodyDivRoundStep_writesTo fs _ _) (by decide),
    tryStep_frame (bodyRoundStep_writesTo fs _ _) (by decide)]
  refine tryStep_null (bodyRoundStep_keepsNull fs _ _ ht) _ ?_
  rw [tryStep_frame (bodyWeightStep_writesTo fs) (by decide)]
  exact h0

theorem bodySets_bodyFat_null (fs hd : Record)
    (h0 : jget hd "bodyFat" = .null)
    (h : containsKey fs "bodyFat" = false) :
    jget (bodySets fs hd) "bodyFat" = .null := by
  have ht : truthy (jget fs "bodyFat") = false := by
    rw [jget_eq_null_of_containsKey fs _ h]
    rfl
  simp only [bodySets]
  rw [tryStep_frame (bodyDivRoundStep_writesTo fs _ _) (by decide),
    tryStep_frame (bodyRoundStep_writesTo fs _ _) (by decide),
    tryStep_frame (bodyVisceralStep_writesTo fs) (by decide),
    tryStep_frame (bodyDivRoundStep_writesTo fs _ _) (by decide)]
  refine tryStep_null (bodyRoundStep_keepsNull fs _ _ ht) _ ?_
  rw [tryStep_frame (bodyRoundStep_writesTo fs _ _) (by decide),
    tryStep_frame (bodyWeightStep_writesTo fs) (by decide)]
  exact h0

theorem bodySets_muscleMass_null (fs hd : Record)
    (h0 : jget hd "muscleMass" = .null)
    (h : containsKey fs "muscleMass" = false) :
    jget (bodySets fs hd) "muscleMass" = .null := by
  have ht : truthy (jget fs "muscleMass") = false := by
    rw [jget_eq_null_of_containsKey fs _ h]
    rfl
  simp only [bodySets]
  rw [tryStep_frame (bodyDivRoundStep_writesTo fs _ _) (by decide),
    tryStep_frame (bodyRoundStep_writesTo fs _ _) (by decide),
    tryStep_frame (bodyVisceralStep_writesTo fs) (by decide)]
  refine tryStep_null (bodyDivRoundStep_keepsNull fs _ _ ht) _ ?_
  rw [tryStep_frame (bodyRoundStep_writesTo fs _ _) (by decide),
    tryStep_frame (bodyRoundStep_writesTo fs _ _) (by decide),
    tryStep_frame (bodyWeightStep_writesTo fs) (by decide)]
  exact h0

theorem bodySets_visceralFat_null (fs hd : Record)
    (h0 : jget hd "visceralFat" = .null)
    (h : containsKey fs "visceralFat" = false) :
    jget (bodySets fs hd) "visceralFat" = .null := by
  simp only [bodySets]
  rw [tryStep_frame (bodyDivRoundStep_writesTo fs _ _) (by decide),
    tryStep_frame (bodyRoundStep_writesTo fs _ _) (by decide)]
  refine tryStep_null (bodyVisceralStep_keepsNull fs h) _ ?_
  rw [tryStep_frame (bodyDivRoundStep_writesTo fs _ _) (by decide),
    tryStep_frame (bodyRoundStep_writesTo fs _ _) (by decide),
    tryStep_frame (bodyRoundStep_writesTo fs _ _) (by decide),
    tryStep_frame (bodyWeightStep_writesTo fs) (by decide)]
  exact h0

theorem bodySets_bodyWater_null (fs hd : Record)
    (h0 : jget hd "bodyWater" = .null)
    (h : containsKey fs "bodyWater" = false) :
    jget (bodySets fs hd) "bodyWater" = .null := by
  have ht : truthy (jget fs "bodyWater") = false := by
    rw [jget_eq_null_of_containsKey fs _ h]
    rfl
  simp only [bodySets]
  rw [tryStep_frame (bodyDivRoundStep_writesTo fs _ _) (by decide)]
  refine tryStep_null (bodyRoundStep_keepsNull fs _ _ ht) _ ?_
  rw [tryStep_frame (bodyVisceralStep_writesTo fs) (by decide),
    tryStep_frame (bodyDivRoundStep_writesTo fs _ _) (by decide),
    tryStep_frame (bodyRoundStep_writesTo fs _ _) (by decide),
    tryStep_frame (bodyRoundStep_writesTo fs _ _) (by decide),
    tryStep_frame (bodyWeightStep_writesTo fs) (by decide)]
  exact h0

theorem bodySets_boneMass_null (fs hd : Record)
    (h0 : jget hd "boneMass" = .null)
    (h : containsKey fs "boneMass" = false) :
    jget (bodySets fs hd) "boneMass" = .null := by
  have ht : truthy (jget fs "boneMass") = false := by
    rw [jget_eq_null_of_containsKey fs _ h]
    rfl
  simp only [bodySets]
  refine tryStep_null (bodyDivRoundStep_keepsNull fs _ _ ht) _ ?_
  rw [tryStep_frame (bodyRoundStep_writesTo fs _ _) (by decide),
    tryStep_frame (bodyVisceralStep_writesTo fs) (by decide),
    tryStep_frame (bodyDivRoundStep_writesTo fs _ _) (by decide),
    tryStep_frame (bodyRoundStep_writesTo fs _ _) (by decide),
    tryStep_frame (bodyRoundStep_writesTo fs _ _) (by decide),
    tryStep_frame (bodyWeightStep_writesTo fs) (by decide)]
  exact h0

theorem bodyBlock_null (r : ApiResult) (hd : Record) (k : String)
    (h0 : jget hd k = .null)
    (hs : ∀ fs, r = .ok (.obj fs) →
      (!fs.isEmpty && truthy (jget fs "weight")) = true →
      jget (bodySets fs hd) k = .null) :
    jget (bodyBlock r hd) k = .null := by
  cases r with
  | exn => exact h0
  | ok v =>
      cases v with
      | obj fs =>
          simp only [bodyBlock]
          split
          · rename_i hg
            exact hs fs rfl hg
          · exact h0
      | null => exact h0
      | bool b => exact h0
      | num q => exact h0
      | str s => exact h0
      | arr xs => exact h0

/-- Claim C1 (amended), safety. `fetch_health_data` is total: no missing
upstream field can raise an exception out of it (every section is modelled by
a total function, mirroring its `try/except`). Every upstream field that is
missing from the corresponding API response leaves its record field `None`,
with one exception forced by lines 87-91: when the stats call succeeds with a
truthy response, the fields intensityMinutesModerate, intensityMinutesVigorous
and intensityMinutes serialize as the number 0 (from `... or 0`) rather than
as `None`; they are `None` only when the stats call fails or its response is
falsy. -/
theorem C1_missing_serializes (g : Garmin) (t : ℤ) (now : String) :
    ((∀ fs, g.get_stats (get_date_string t) = .ok (.obj fs) →
        containsKey fs "restingHeartRate" = false) →
      jget (fetch_health_data g t now).1 "rhr" = .null) ∧
    ((∀ fs, g.get_stats (get_date_string t) = .ok (.obj fs) →
        containsKey fs "totalSteps" = false) →
      jget (fetch_health_data g t now).1 "steps" = .null) ∧
    ((∀ fs, g.get_stats (get_date_string t) = .ok (.obj fs) →
        containsKey fs "floorsClimbed" = false) →
      jget (fetch_health_data g t now).1 "floors" = .null) ∧
    ((∀ fs, g.get_stats (get_date_string t) = .ok (.obj fs) →
        containsKey fs "totalKilocalories" = false) →
      jget (fetch_health_data g t now).1 "calories" = .null) ∧
    ((∀ fs, g.get_stats (get_date_string t) = .ok (.obj fs) →
        containsKey fs "activeKilocalories" = false) →
      jget (fetch_health_data g t now).1 "activeCalories" = .null) ∧
    ((∀ fs, g.get_stats (get_date_string t) = .ok (.obj fs) → fs.isEmpty = false →
        containsKey fs "moderateIntensityMinutes" = false ∧
        containsKey fs "vigorousIntensityMinutes" = false) →
      entered (g.get_stats (get_date_string t)) = true →
      jget (fetch_health_data g t now).1 "intensityMinutesModerate" = .num 0 ∧
      jget (fetch_health_data g t now).1 "intensityMinutesVigorous" = .num 0 ∧
      jget (fetch_health_data g t now).1 "intensityMinutes" = .num 0) ∧
    (entered (g.get_stats (get_date_string t)) = false →
      jget (fetch_health_data g t now).1 "intensityMinutesModerate" = .null ∧
      jget (fetch_health_data g t now).1 "intensityMinutesVigorous" = .null ∧
      jget (fetch_health_data g t now).1 "intensityMinutes" = .null) ∧
    ((∀ fs hs, g.get_hrv_data (get_date_string t) = .ok (.obj fs) →
        jget fs "hrvSummary" = .obj hs →
        containsKey hs "lastNightAvg" = false ∧
        containsKey hs "weeklyAvg" = false) →
      jget (fetch_health_data g t now).1 "hrv" = .null) ∧
    ((∀ fs, g.get_stress_data (get_date_string t) = .ok (.obj fs) →
        containsKey fs "avgStressLevel" = false) →
      jget (fetch_health_data g t now).1 "stressAvg" = .null) ∧
    ((∀ fs sf, g.get_sleep_data (get_date_string t) = .ok (.obj fs) →
        jget fs "dailySleepDTO" = .obj sf →
        containsKey sf "sleepTimeSeconds" = false) →
      jget (fetch_health_data g t now).1 "sleepDuration" = .null) ∧
    ((∀ fs sf, g.get_sleep_data (get_date_string t) = .ok (.obj fs) →
        jget fs "dailySleepDTO" = .obj sf →
        containsKey sf "deepSleepSeconds" = false) →
      jget (fetch_health_data g t now).1 "sleepDeep" = .null) ∧
    ((∀ fs sf, g.get_sleep_data (get_date_string t) = .ok (.obj fs) →
        jget fs "dailySleepDTO" = .obj sf →
        containsKey sf "lightSleepSeconds" = false) →
      jget (fetch_health_data g t now).1 "sleepLight" = .null) ∧
    ((∀ fs sf, g.get_sleep_data (get_date_string t) = .ok (.obj fs) →
        jget fs "dailySleepDTO" = .obj sf →
        containsKey sf "remSleepSeconds" = false) →
      jget (fetch_health_data g t now).1 "sleepRem" = .null) ∧
    ((∀ fs sf, g.get_sleep_data (get_date_string t) = .ok (.obj fs) →
        jget fs "dailySleepDTO" = .obj sf →
        containsKey sf "awakeSleepSeconds" = false) →
      jget (fetch_health_data g t now).1 "sleepAwake" = .null) ∧
    ((∀ fs sf, g.get_sleep_data (get_date_string t) = .ok (.obj fs) →
        jget fs "dailySleepDTO" = .obj sf →
        containsKey sf "awakeCount" = false) →
      jget (fetch_health_data g t now).1 "sleepInterruptions" = .null) ∧
    ((∀ fs sf, g.get_sleep_data (get_date_string t) = .ok (.obj fs) →
        jget fs "dailySleepDTO" = .obj sf →
        containsKey sf "sleepScores" = false) →
      jget (fetch_health_data g t now).1 "sleepScore" = .null) ∧
    ((∀ fs, g.get_respiration_data (get_date_string t) = .ok (.obj fs) →
        containsKey fs "avgWakingRespirationValue" = false ∧
        containsKey fs "avgSleepRespirationValue" = false) →
      jget (fetch_health_data g t now).1 "respiration" = .null) ∧
    ((∀ fs, g.get_body_composition (get_date_string t) = .ok (.obj fs) →
        containsKey fs "weight" = false) →
      jget (fetch_health_data g t now).1 "weight" = .null) ∧
    ((∀ fs, g.get_body_composition (get_date_string t) = .ok (.obj fs) →
        containsKey fs "bmi" = false) →
      jget (fetch_health_data g t now).1 "bmi" = .null) ∧
    ((∀ fs, g.get_body_composition (get_date_string t) = .ok (.obj fs) →
        containsKey fs "bodyFat" = false) →
      jget (fetch_health_data g t now).1 "bodyFat" = .null) ∧
    ((∀ fs, g.get_body_composition (get_date_string t) = .ok (.obj fs) →
        containsKey fs "muscleMass" = false) →
      jget (fetch_health_data g t now).1 "muscleMass" = .null) ∧
    ((∀ fs, g.get_body_composition (get_date_string t) = .ok (.obj fs) →
        containsKey fs "visceralFat" = false) →
      jget (fetch_health_data g t now).1 "visceralFat" = .null) ∧
    ((∀ fs, g.get_body_composition (get_date_string t) = .ok (.obj fs) →
        containsKey fs "bodyWater" = false) →
      jget (fetch_health_data g t now).1 "bodyWater" = .null) ∧
    ((∀ fs, g.get_body_composition (get_date_string t) = .ok (.obj fs) →
        containsKey fs "boneMass" = false) →
      jget (fetch_health_data g t now).1 "boneMass" = .null) := by
  refine ⟨?_, ?_, ?_, ?_, ?_, ?_, ?_, ?_, ?_, ?_, ?_, ?_, ?_, ?_, ?_, ?_, ?_, ?_, ?_, ?_, ?_, ?_, ?_, ?_⟩
  · intro h
    rw [fetch_fst, bodyBlock_frame _ _ (by decide),
      respirationBlock_frame _ _ (by decide), sleepBlock_frame _ _ (by decide),
      stressBlock_frame _ _ (by decide), hrvBlock_frame _ _ (by decide)]
    exact statsBlock_rhr_null _ _ rfl h
  · intro h
    rw [fetch_fst, bodyBlock_frame _ _ (by decide),
      respirationBlock_frame _ _ (by decide), sleepBlock_frame _ _ (by decide),
      stressBlock_frame _ _ (by decide), hrvBlock_frame _ _ (by decide)]
    exact statsBlock_steps_null _ _ rfl h
  · intro h
    rw [fetch_fst, bodyBlock_frame _ _ (by decide),
      respirationBlock_frame _ _ (by decide), sleepBlock_frame _ _ (by decide),
      stressBlock_frame _ _ (by decide), hrvBlock_frame _ _ (by decide)]
    exact statsBlock_floors_null _ _ rfl h
  · intro h
    rw [fetch_fst, bodyBlock_frame _ _ (by decide),
      respirationBlock_frame _ _ (by decide), sleepBlock_frame _ _ (by decide),
      stressBlock_frame _ _ (by decide), hrvBlock_frame _ _ (by decide)]
    exact statsBlock_calories_null _ _ rfl h
  · intro h
    rw [fetch_fst, bodyBlock_frame _ _ (by decide),
      respirationBlock_frame _ _ (by decide), sleepBlock_frame _ _ (by decide),
      stressBlock_frame _ _ (by decide), hrvBlock_frame _ _ (by decide)]
    exact statsBlock_activeCalories_null _ _ rfl h
  · intro h hent
    rcases hr : g.get_stats (get_date_string t) with - | v
    · rw [hr] at hent
      exact absurd hent (by simp [entered])
    · cases v with
      | obj fs =>
          have he : fs.isEmpty = false := by
            rw [hr] at hent
            simpa [entered] using hent
          obtain ⟨hm, hv⟩ := h fs hr he
          have hint := statsBlock_intensity_missing fs
            (initRecord (get_date_string t) now) he hm hv
          refine ⟨?_, ?_, ?_⟩ <;>
            · rw [fetch_fst, bodyBlock_frame _ _ (by decide),
                respirationBlock_frame _ _ (by decide),
                sleepBlock_frame _ _ (by decide),
                stressBlock_frame _ _ (by decide),
                hrvBlock_frame _ _ (by decide), hr]
              first
              | exact hint.1
              | exact hint.2.1
              | exact hint.2.2
      | null => rw [hr] at hent; exact absurd hent (by simp [entered])
      | bool b => rw [hr] at hent; exact absurd hent (by simp [entered])
      | num q => rw [hr] at hent; exact absurd hent (by simp [entered])
      | str s => rw [hr] at hent; exact absurd hent (by simp [entered])
      | arr xs => rw [hr] at hent; exact absurd hent (by simp [entered])
  · intro hent
    refine ⟨?_, ?_, ?_⟩ <;>
      · rw [fetch_fst, bodyBlock_frame _ _ (by decide),
          respirationBlock_frame _ _ (by decide),
          sleepBlock_frame _ _ (by decide), stressBlock_frame _ _ (by decide),
          hrvBlock_frame _ _ (by decide), statsBlock_notEntered _ _ hent]
        rfl
  · intro h
    rw [fetch_fst, bodyBlock_frame _ _ (by decide),
      respirationBlock_frame _ _ (by decide), sleepBlock_frame _ _ (by decide),
      stressBlock_frame _ _ (by decide)]
    refine hrvBlock_null _ _ ?_ h
    rw [statsBlock_frame _ _ (by decide)]
    rfl
  · intro h
    rw [fetch_fst, bodyBlock_frame _ _ (by decide),
      respirationBlock_frame _ _ (by decide), sleepBlock_frame _ _ (by decide)]
    refine stressBlock_null _ _ ?_ h
    rw [hrvBlock_frame _ _ (by decide), statsBlock_frame _ _ (by decide)]
    rfl
  · intro h
    rw [fetch_fst, bodyBlock_frame _ _ (by decide),
      respirationBlock_frame _ _ (by decide)]
    refine sleepBlock_null _ _ _ ?_ ?_
    · rw [stressBlock_frame _ _ (by decide), hrvBlock_frame _ _ (by decide),
        statsBlock_frame _ _ (by decide)]
      rfl
    · intro fs sf hr hdto
      refine sleepSets_duration_null sf _ ?_ (h fs sf hr hdto)
      rw [stressBlock_frame _ _ (by decide), hrvBlock_frame _ _ (by decide),
        statsBlock_frame _ _ (by decide)]
      rfl
  · intro h
    rw [fetch_fst, bodyBlock_frame _ _ (by decide),
      respirationBlock_frame _ _ (by decide)]
    refine sleepBlock_null _ _ _ ?_ ?_
    · rw [stressBlock_frame _ _ (by decide), hrvBlock_frame _ _ (by decide),
        statsBlock_frame _ _ (by decide)]
      rfl
    · intro fs sf hr hdto
      refine sleepSets_deep_null sf _ ?_ (h fs sf hr hdto)
      rw [stressBlock_frame _ _ (by decide), hrvBlock_frame _ _ (by decide),
        statsBlock_frame _ _ (by decide)]
      rfl
  · intro h
    rw [fetch_fst, bodyBlock_frame _ _ (by decide),
      respirationBlock_frame _ _ (by decide)]
    refine sleepBlock_null _ _ _ ?_ ?_
    · rw [stressBlock_frame _ _ (by decide), hrvBlock_frame _ _ (by decide),
        statsBlock_frame _ _ (by decide)]
      rfl
    · intro fs sf hr hdto
      refine sleepSets_light_null sf _ ?_ (h fs sf hr hdto)
      rw [stressBlock_frame _ _ (by decide), hrvBlock_frame _ _ (by decide),
        statsBlock_frame _ _ (by decide)]
      rfl
  · intro h
    rw [fetch_fst, bodyBlock_frame _ _ (by decide),
      respirationBlock_frame _ _ (by decide)]
    refine sleepBlock_null _ _ _ ?_ ?_
    · rw [stressBlock_frame _ _ (by decide), hrvBlock_frame _ _ (by decide),
        statsBlock_frame _ _ (by decide)]
      rfl
    · intro fs sf hr hdto
      refine sleepSets_rem_null sf _ ?_ (h fs sf hr hdto)
      rw [stressBlock_frame _ _ (by decide), hrvBlock_frame _ _ (by decide),
        statsBlock_frame _ _ (by decide)]
      rfl
  · intro h
    rw [fetch_fst, bodyBlock_frame _ _ (by decide),
      respirationBlock_frame _ _ (by decide)]
    refine sleepBlock_null _ _ _ ?_ ?_
    · rw [stressBlock_frame _ _ (by decide), hrvBlock_frame _ _ (by decide),
        statsBlock_frame _ _ (by decide)]
      rfl
    · intro fs sf hr hdto
      refine sleepSets_awake_null sf _ ?_ (h fs sf hr hdto)
      rw [stressBlock_frame _ _ (by decide), hrvBlock_frame _ _ (by decide),
        statsBlock_frame _ _ (by decide)]
      rfl
  · intro h
    rw [fetch_fst, bodyBlock_frame _ _ (by decide),
      respirationBlock_frame _ _ (by decide)]
    refine sleepBlock_null _ _ _ ?_ ?_
    · rw [stressBlock_frame _ _ (by decide), hrvBlock_frame _ _ (by decide),
        statsBlock_frame _ _ (by decide)]
      rfl
    · intro fs sf hr hdto
      refine sleepSets_interruptions_null sf _ ?_ (h fs sf hr hdto)
      rw [stressBlock_frame _ _ (by decide), hrvBlock_frame _ _ (by decide),
        statsBlock_frame _ _ (by decide)]
      rfl
  · intro h
    rw [fetch_fst, bodyBlock_frame _ _ (by decide),
      respirationBlock_frame _ _ (by decide)]
    refine sleepBlock_null _ _ _ ?_ ?_
    · rw [stressBlock_frame _ _ (by decide), hrvBlock_frame _ _ (by decide),
        statsBlock_frame _ _ (by decide)]
      rfl
    · intro fs sf hr hdto
      refine sleepSets_score_null sf _ ?_ (h fs sf hr hdto)
      rw [stressBlock_frame _ _ (by decide), hrvBlock_frame _ _ (by decide),
        statsBlock_frame _ _ (by decide)]
      rfl
  · intro h
    rw [fetch_fst, bodyBlock_frame _ _ (by decide)]
    refine respirationBlock_null _ _ ?_ h
    rw [sleepBlock_frame _ _ (by decide), stressBlock_frame _ _ (by decide),
      hrvBlock_frame _ _ (by decide), statsBlock_frame _ _ (by decide)]
    rfl
  · intro h
    rw [fetch_fst]
    refine bodyBlock_null _ _ _ ?_ ?_
    · rw [respirationBlock_frame _ _ (by decide),
        sleepBlock_frame _ _ (by decide), stressBlock_frame _ _ (by decide),
        hrvBlock_frame _ _ (by decide), statsBlock_frame _ _ (by decide)]
      rfl
    · intro fs hr hg
      exfalso
      rw [jget_eq_null_of_containsKey fs _ (h fs hr)] at hg
      simp [truthy] at hg
  · intro h
    rw [fetch_fst]
    refine bodyBlock_null _ _ _ ?_ ?_
    · rw [respirationBlock_frame _ _ (by decide),
        sleepBlock_frame _ _ (by decide), stressBlock_frame _ _ (by decide),
        hrvBlock_frame _ _ (by decide), statsBlock_frame _ _ (by decide)]
      rfl
    · intro fs hr hg
      refine bodySets_bmi_null fs _ ?_ (h fs hr)
      rw [respirationBlock_frame _ _ (by decide),
        sleepBlock_frame _ _ (by decide), stressBlock_frame _ _ (by decide),
        hrvBlock_frame _ _ (by decide), statsBlock_frame _ _ (by decide)]
      rfl
  · intro h
    rw [fetch_fst]
    refine bodyBlock_null _ _ _ ?_ ?_
    · rw [respirationBlock_frame _ _ (by decide),
        sleepBlock_frame _ _ (by decide), stressBlock_frame _ _ (by decide),
        hrvBlock_frame _ _ (by decide), statsBlock_frame _ _ (by decide)]
      rfl
    · intro fs hr hg
      refine bodySets_bodyFat_null fs _ ?_ (h fs hr)
      rw [respirationBlock_frame _ _ (by decide),
        sleepBlock_frame _ _ (by decide), stressBlock_frame _ _ (by decide),
        hrvBlock_frame _ _ (by decide), statsBlock_frame _ _ (by decide)]
      rfl
  · intro h
    rw [fetch_fst]
    refine bodyBlock_null _ _ _ ?_ ?_
    · rw [respirationBlock_frame _ _ (by decide),
        sleepBlock_frame _ _ (by decide), stressBlock_frame _ _ (by decide),
        hrvBlock_frame _ _ (by decide), statsBlock_frame _ _ (by decide)]
      rfl
    · intro fs hr hg
      refine bodySets_muscleMass_null fs _ ?_ (h fs hr)
      rw [respirationBlock_frame _ _ (by decide),
        sleepBlock_frame _ _ (by decide), stressBlock_frame _ _ (by decide),
        hrvBlock_frame _ _ (by decide), statsBlock_frame _ _ (by decide)]
      rfl
  · intro h
    rw [fetch_fst]
    refine bodyBlock_null _ _ _ ?_ ?_
    · rw [respirationBlock_frame _ _ (by decide),
        sleepBlock_frame _ _ (by decide), stressBlock_frame _ _ (by decide),
        hrvBlock_frame _ _ (by decide), statsBlock_frame _ _ (by decide)]
      rfl
    · intro fs hr hg
      refine bodySets_visceralFat_null fs _ ?_ (h fs hr)
      rw [respirationBlock_frame _ _ (by decide),
        sleepBlock_frame _ _ (by decide), stressBlock_frame _ _ (by decide),
        hrvBlock_frame _ _ (by decide), statsBlock_frame _ _ (by decide)]
      rfl
  · intro h
    rw [fetch_fst]
    refine bodyBlock_null _ _ _ ?_ ?_
    · rw [respirationBlock_frame _ _ (by decide),
        sleepBlock_frame _ _ (by decide), stressBlock_frame _ _ (by decide),
        hrvBlock_frame _ _ (by decide), statsBlock_frame _ _ (by decide)]
      rfl
    · intro fs hr hg
      refine bodySets_bodyWater_null fs _ ?_ (h fs hr)
      rw [respirationBlock_frame _ _ (by decide),
        sleepBlock_frame _ _ (by decide), stressBlock_frame _ _ (by decide),
        hrvBlock_frame _ _ (by decide), statsBlock_frame _ _ (by decide)]
      rfl
  · intro h
    rw [fetch_fst]
    refine bodyBlock_null _ _ _ ?_ ?_
    · rw [respirationBlock_frame _ _ (by decide),
        sleepBlock_frame _ _ (by decide), stressBlock_frame _ _ (by decide),
        hrvBlock_frame _ _ (by decide), statsBlock_frame _ _ (by decide)]
      rfl
    · intro fs hr hg
      refine bodySets_boneMass_null fs _ ?_ (h fs hr)
      rw [respirationBlock_frame _ _ (by decide),
        sleepBlock_frame _ _ (by decide), stressBlock_frame _ _ (by decide),
        hrvBlock_frame _ _ (by decide), statsBlock_frame _ _ (by decide)]
      rfl

/-- Counterexample to claim C1 as stated: with a successful stats response
that lacks the intensity-minutes fields, intensityMinutesModerate serializes
as 0, not as `None`. -/
theorem C1_counterexample :
    containsKey [("totalSteps", JVal.num 5)] "moderateIntensityMinutes" = false ∧
    jget (fetch_health_data cStepsOnly 0 "t").1 "intensityMinutesModerate" =
      .num 0 ∧
    JVal.num 0 ≠ JVal.null :=
  ⟨rfl, rfl, fun h => JVal.noConfusion h⟩

/-- Witness for the amended C1 at a client whose calls all raise. -/
theorem C1_missing_serializes_witness :
    jget (fetch_health_data cAllExn 0 "t").1 "rhr" = .null ∧
    jget (fetch_health_data cAllExn 0 "t").1 "sleepDuration" = .null ∧
    jget (fetch_health_data cAllExn 0 "t").1 "intensityMinutes" = .null ∧
    jget (fetch_health_data cAllExn 0 "t").1 "weight" = .null :=
  ⟨(C1_missing_serializes cAllExn 0 "t").1
      (fun fs h => ApiResult.noConfusion h),
   (C1_missing_serializes cAllExn 0 "t").2.2.2.2.2.2.2.2.2.1
      (fun fs sf h => absurd h (fun hh => ApiResult.noConfusion hh)),
   ((C1_missing_serializes cAllExn 0 "t").2.2.2.2.2.2.1 rfl).2.2,
   (C1_missing_serializes cAllExn 0 "t").2.2.2.2.2.2.2.2.2.2.2.2.2.2.2.2.2.1
      (fun fs h => ApiResult.noConfusion h)⟩

/-- Claim C9 (amended), numerical. When the stats call succeeds with a truthy
dictionary response and the moderate and vigorous intensity values are, after
the `or 0` defaulting at lines 87-88, numbers `qm` and `qv` (which covers the
claimed missing-or-null-treated-as-0 cases), the record stores those numbers
and intensityMinutes equals `qm + 2 * qv`; the result is an integer whenever
both components are. For non-numeric response values the original claim fails
(see the counterexample). -/
theorem C9_intensity_formula (g : Garmin) (t : ℤ) (now : String)
    (fs : Record) (qm qv : ℚ)
    (hs : g.get_stats (get_date_string t) = .ok (.obj fs))
    (he : fs.isEmpty = false)
    (hm : pyOr (jget fs "moderateIntensityMinutes") (.num 0) = .num qm)
    (hv : pyOr (jget fs "vigorousIntensityMinutes") (.num 0) = .num qv) :
    jget (fetch_health_data g t now).1 "intensityMinutesModerate" = .num qm ∧
    jget (fetch_health_data g t now).1 "intensityMinutesVigorous" = .num qv ∧
    jget (fetch_health_data g t now).1 "intensityMinutes" =
      .num (qm + 2 * qv) ∧
    ((∃ zm : ℤ, qm = (zm : ℚ)) → (∃ zv : ℤ, qv = (zv : ℚ)) →
      ∃ z : ℤ, qm + 2 * qv = (z : ℚ)) := by
  refine ⟨?_, ?_, ?_, ?_⟩
  · rw [fetch_fst, bodyBlock_frame _ _ (by decide),
      respirationBlock_frame _ _ (by decide), sleepBlock_frame _ _ (by decide),
      stressBlock_frame _ _ (by decide), hrvBlock_frame _ _ (by decide), hs,
      (statsBlock_fields fs _ he).2.2.2.2.2.1, hm]
  · rw [fetch_fst, bodyBlock_frame _ _ (by decide),
      respirationBlock_frame _ _ (by decide), sleepBlock_frame _ _ (by decide),
      stressBlock_frame _ _ (by decide), hrvBlock_frame _ _ (by decide), hs,
      (statsBlock_fields fs _ he).2.2.2.2.2.2, hv]
  · rw [fetch_fst, bodyBlock_frame _ _ (by decide),
      respirationBlock_frame _ _ (by decide), sleepBlock_frame _ _ (by decide),
      stressBlock_frame _ _ (by decide), hrvBlock_frame _ _ (by decide), hs,
      statsBlock_intensity fs _ he, hm, hv]
    rfl
  · rintro ⟨zm, rfl⟩ ⟨zv, rfl⟩
    refine ⟨zm + 2 * zv, ?_⟩
    push_cast
    ring

/-- Counterexample to claim C9 as stated: a successful, truthy stats response
whose moderateIntensityMinutes is a nested mapping; the component field is
stored as that mapping (not a non-null integer) and intensityMinutes stays
`None` because line 91 raises a TypeError. -/
theorem C9_counterexample :
    entered (cStatsObjMod.get_stats (get_date_string 0)) = true ∧
    jget (fetch_health_data cStatsObjMod 0 "t").1 "intensityMinutesModerate" =
      .obj [("x", .num 1)] ∧
    (∀ q : ℚ, JVal.obj [("x", .num 1)] ≠ .num q) ∧
    jget (fetch_health_data cStatsObjMod 0 "t").1 "intensityMinutes" = .null :=
  ⟨rfl, rfl, fun _ h => JVal.noConfusion h, rfl⟩

/-- Witness for the amended C9 with 3 moderate minutes and no vigorous
minutes. -/
theorem C9_intensity_formula_witness :
    jget (fetch_health_data cIntNum 0 "t").1 "intensityMinutesModerate" =
      .num 3 ∧
    jget (fetch_health_data cIntNum 0 "t").1 "intensityMinutes" =
      .num (3 + 2 * 0) ∧
    ∃ z : ℤ, (3 : ℚ) + 2 * 0 = (z : ℚ) := by
  have h := C9_intensity_formula cIntNum 0 "t"
    [("moderateIntensityMinutes", .num 3)] 3 0 rfl rfl rfl rfl
  exact ⟨h.1, h.2.2.1, h.2.2.2 ⟨3, by norm_num⟩ ⟨0, by norm_num⟩⟩

/-! Evaluation of the body-composition steps on numeric data. -/

theorem jgetD_eq_jget {d : Record} {k : String} (h : jget d k ≠ .null)
    (dflt : JVal) : jgetD d k dflt = jget d k := by
  induction d with
  | nil => exact absurd rfl h
  | cons p rest ih =>
      obtain ⟨a, b⟩ := p
      by_cases h2 : a = k
      · simp [jget, jgetD, h2]
      · simp only [jget, jgetD, if_neg h2] at h ⊢
        exact ih h

theorem tryStep_run {f : Record → Option Record} {d d2 : Record}
    (h : f d = some d2) : tryStep f (d, true) = (d2, true) := by
  simp [tryStep, h]

theorem bodyWeightStep_eval (fs : Record) {w : ℚ}
    (hw : jget fs "weight" = .num w) (d : Record) :
    bodyWeightStep fs d = some (dictSet d "weight" (.num (gramsToKg w))) := by
  unfold bodyWeightStep
  rw [hw]
  rfl

theorem bodyRoundStep_eval_null (fs : Record) (src dst : String)
    (h : truthy (jget fs src) = false) (d : Record) :
    bodyRoundStep fs src dst d = some (dictSet d dst .null) := by
  unfold bodyRoundStep
  rw [h]
  simp

theorem bodyRoundStep_eval_num (fs : Record) (src dst : String) {q : ℚ}
    (hq : jget fs src = .num q) (h0 : q ≠ 0) (d : Record) :
    bodyRoundStep fs src dst d = some (dictSet d dst (.num (round1q q))) := by
  unfold bodyRoundStep
  have ht : truthy (jget fs src) = true := by
    rw [hq]
    simpa [truthy] using h0
  rw [ht, jgetD_eq_jget (by rw [hq]; exact fun hh => JVal.noConfusion hh) _, hq]
  simp [pyRound1, toNum, round1q]

theorem bodyDivRoundStep_eval_null (fs : Record) (src dst : String)
    (h : truthy (jget fs src) = false) (d : Record) :
    bodyDivRoundStep fs src dst d = some (dictSet d dst .null) := by
  unfold bodyDivRoundStep
  rw [h]
  simp

theorem bodyDivRoundStep_eval_num (fs : Record) (src dst : String) {q : ℚ}
    (hq : jget fs src = .num q) (h0 : q ≠ 0) (d : Record) :
    bodyDivRoundStep fs src dst d =
      some (dictSet d dst (.num (gramsToKg q))) := by
  unfold bodyDivRoundStep
  have ht : truthy (jget fs src) = true := by
    rw [hq]
    simpa [truthy] using h0
  rw [ht, jgetD_eq_jget (by rw [hq]; exact fun hh => JVal.noConfusion hh) _, hq]
  simp [divRound, pyDiv1000, pyRound1, toNum, gramsToKg, round1q]

theorem bodyRoundStep_succeeds (fs : Record) (src dst : String)
    (h : NumOrFalsy (jget fs src)) (d : Record) :
    ∃ d2, bodyRoundStep fs src dst d = some d2 := by
  cases ht : truthy (jget fs src) with
  | false => exact ⟨_, bodyRoundStep_eval_null fs src dst ht d⟩
  | true =>
      rcases h with hfal | ⟨q, hq⟩
      · rw [ht] at hfal
        exact absurd hfal (by simp)
      · have h0 : q ≠ 0 := by
          intro hh
          rw [hq, hh] at ht
          simp [truthy] at ht
        exact ⟨_, bodyRoundStep_eval_num fs src dst hq h0 d⟩

theorem bodyDivRoundStep_succeeds (fs : Record) (src dst : String)
    (h : NumOrFalsy (jget fs src)) (d : Record) :
    ∃ d2, bodyDivRoundStep fs src dst d = some d2 := by
  cases ht : truthy (jget fs src) with
  | false => exact ⟨_, bodyDivRoundStep_eval_null fs src dst ht d⟩
  | true =>
      rcases h with hfal | ⟨q, hq⟩
      · rw [ht] at hfal
        exact absurd hfal (by simp)
      · have h0 : q ≠ 0 := by
          intro hh
          rw [hq, hh] at ht
          simp [truthy] at ht
        exact ⟨_, bodyDivRoundStep_eval_num fs src dst hq h0 d⟩

theorem bodySets_fields_num (fs hd : Record) {w : ℚ}
    (hw : jget fs "weight" = .num w)
    (hbmi : NumOrFalsy (jget fs "bmi")) (hfat : NumOrFalsy (jget fs "bodyFat"))
    (hmus : NumOrFalsy (jget fs "muscleMass"))
    (hwat : NumOrFalsy (jget fs "bodyWater")) :
    jget (bodySets fs hd) "weight" = .num (gramsToKg w) ∧
    (truthy (jget fs "muscleMass") = false →
      jget (bodySets fs hd) "muscleMass" = .null) ∧
    (∀ q : ℚ, jget fs "muscleMass" = .num q → q ≠ 0 →
      jget (bodySets fs hd) "muscleMass" = .num (gramsToKg q)) ∧
    (truthy (jget fs "boneMass") = false →
      jget (bodySets fs hd) "boneMass" = .null) ∧
    (∀ q : ℚ, jget fs "boneMass" = .num q → q ≠ 0 →
      jget (bodySets fs hd) "boneMass" = .num (gramsToKg q)) := by
  obtain ⟨d2, h2⟩ := bodyRoundStep_succeeds fs "bmi" "bmi" hbmi
    (dictSet hd "weight" (.num (gramsToKg w)))
  obtain ⟨d3, h3⟩ := bodyRoundStep_succeeds fs "bodyFat" "bodyFat" hfat d2
  obtain ⟨d4, h4⟩ := bodyDivRoundStep_succeeds fs "muscleMass" "muscleMass"
    hmus d3
  obtain ⟨d6, h6⟩ := bodyRoundStep_succeeds fs "bodyWater" "bodyWater" hwat
    (dictSet d4 "visceralFat" (jget fs "visceralFat"))
  have h5 : bodyVisceralStep fs d4 =
      some (dictSet d4 "visceralFat" (jget fs "visceralFat")) := rfl
  refine ⟨?_, ?_, ?_, ?_, ?_⟩
  · simp only [bodySets]
    rw [tryStep_frame (bodyDivRoundStep_writesTo fs _ _) (by decide),
      tryStep_frame (bodyRoundStep_writesTo fs _ _) (by decide),
      tryStep_frame (bodyVisceralStep_writesTo fs) (by decide),
      tryStep_frame (bodyDivRoundStep_writesTo fs _ _) (by decide),
      tryStep_frame (bodyRoundStep_writesTo fs _ _) (by decide),
      tryStep_frame (bodyRoundStep_writesTo fs _ _) (by decide),
      tryStep_run (bodyWeightStep_eval fs hw hd)]
    exact jget_dictSet_same _ _ _
  · intro hfal
    simp only [bodySets]
    rw [tryStep_frame (bodyDivRoundStep_writesTo fs _ _) (by decide),
      tryStep_frame (bodyRoundStep_writesTo fs _ _) (by decide),
      tryStep_frame (bodyVisceralStep_writesTo fs) (by decide),
      tryStep_run (bodyWeightStep_eval fs hw hd), tryStep_run h2,
      tryStep_run h3,
      tryStep_run (bodyDivRoundStep_eval_null fs "muscleMass" "muscleMass"
        hfal d3)]
    exact jget_dictSet_same _ _ _
  · intro q hq hq0
    simp only [bodySets]
    rw [tryStep_frame (bodyDivRoundStep_writesTo fs _ _) (by decide),
      tryStep_frame (bodyRoundStep_writesTo fs _ _) (by decide),
      tryStep_frame (bodyVisceralStep_writesTo fs) (by decide),
      tryStep_run (bodyWeightStep_eval fs hw hd), tryStep_run h2,
      tryStep_run h3,
      tryStep_run (bodyDivRoundStep_eval_num fs "muscleMass" "muscleMass"
        hq hq0 d3)]
    exact jget_dictSet_same _ _ _
  · intro hfal
    simp only [bodySets]
    rw [tryStep_run (bodyWeightStep_eval fs hw hd), tryStep_run h2,
      tryStep_run h3, tryStep_run h4, tryStep_run h5, tryStep_run h6,
      tryStep_run (bodyDivRoundStep_eval_null fs "boneMass" "boneMass"
        hfal d6)]
    exact jget_dictSet_same _ _ _
  · intro q hq hq0
    simp only [bodySets]
    rw [tryStep_run (bodyWeightStep_eval fs hw hd), tryStep_run h2,
      tryStep_run h3, tryStep_run h4, tryStep_run h5, tryStep_run h6,
      tryStep_run (bodyDivRoundStep_eval_num fs "boneMass" "boneMass"
        hq hq0 d6)]
    exact jget_dictSet_same _ _ _

/-- Claim C10 (amended), functional correctness. All seven body-composition
fields stay `None` unless the body-composition response is a dictionary with
a truthy weight value (the guard at line 159). When the guard holds and the
relevant response values are numeric where present: weight is converted from
grams to kilograms and rounded to one decimal place, and muscleMass and
boneMass are likewise converted and rounded when present and truthy, but stay
`None` when absent or falsy (the original claim asserted they are always
converted whenever weight is present; the counterexample refutes that). -/
theorem C10_body_composition (g : Garmin) (t : ℤ) (now : String) :
    (∀ k ∈ sectionKeys ApiSection.body,
      bodyEntered (g.get_body_composition (get_date_string t)) = false →
      jget (fetch_health_data g t now).1 k = .null) ∧
    (∀ (fs : Record) (w : ℚ),
      g.get_body_composition (get_date_string t) = .ok (.obj fs) →
      jget fs "weight" = .num w → w ≠ 0 →
      NumOrFalsy (jget fs "bmi") → NumOrFalsy (jget fs "bodyFat") →
      NumOrFalsy (jget fs "muscleMass") → NumOrFalsy (jget fs "bodyWater") →
      jget (fetch_health_data g t now).1 "weight" = .num (gramsToKg w) ∧
      (truthy (jget fs "muscleMass") = false →
        jget (fetch_health_data g t now).1 "muscleMass" = .null) ∧
      (∀ q : ℚ, jget fs "muscleMass" = .num q → q ≠ 0 →
        jget (fetch_health_data g t now).1 "muscleMass" =
          .num (gramsToKg q)) ∧
      (truthy (jget fs "boneMass") = false →
        jget (fetch_health_data g t now).1 "boneMass" = .null) ∧
      (∀ q : ℚ, jget fs "boneMass" = .num q → q ≠ 0 →
        jget (fetch_health_data g t now).1 "boneMass" =
          .num (gramsToKg q))) := by
  constructor
  · intro k hk hent
    fin_cases hk <;>
      · rw [fetch_fst, bodyBlock_notEntered _ _ hent,
          respirationBlock_frame _ _ (by decide),
          sleepBlock_frame _ _ (by decide), stressBlock_frame _ _ (by decide),
          hrvBlock_frame _ _ (by decide), statsBlock_frame _ _ (by decide)]
        rfl
  · intro fs w hr hw hw0 hbmi hfat hmus hwat
    have he : fs.isEmpty = false := by
      cases fs with
      | nil => exact absurd hw (by simp [jget])
      | cons p rest => rfl
    have hg : (!List.isEmpty fs && truthy (jget fs "weight")) = true := by
      rw [he, hw]
      simpa [truthy] using hw0
    have hfields := bodySets_fields_num fs
      (respirationBlock (g.get_respiration_data (get_date_string t))
        (sleepBlock (g.get_sleep_data (get_date_string t))
          (stressBlock (g.get_stress_data (get_date_string t))
            (hrvBlock (g.get_hrv_data (get_date_string t))
              (statsBlock (g.get_stats (get_date_string t))
                (initRecord (get_date_string t) now))))))
      hw hbmi hfat hmus hwat
    have hopen : ∀ k : String,
        jget (fetch_health_data g t now).1 k =
        jget (bodySets fs
          (respirationBlock (g.get_respiration_data (get_date_string t))
            (sleepBlock (g.get_sleep_data (get_date_string t))
              (stressBlock (g.get_stress_data (get_date_string t))
                (hrvBlock (g.get_hrv_data (get_date_string t))
                  (statsBlock (g.get_stats (get_date_string t))
                    (initRecord (get_date_string t) now))))))) k := by
      intro k
      rw [fetch_fst, hr]
      simp only [bodyBlock]
      rw [if_pos hg]
    refine ⟨?_, ?_, ?_, ?_, ?_⟩
    · rw [hopen]
      exact hfields.1
    · intro hfal
      rw [hopen]
      exact hfields.2.1 hfal
    · intro q hq hq0
      rw [hopen]
      exact hfields.2.2.1 q hq hq0
    · intro hfal
      rw [hopen]
      exact hfields.2.2.2.1 hfal
    · intro q hq hq0
      rw [hopen]
      exact hfields.2.2.2.2 q hq hq0

theorem roundHalfEven_intCast (z : ℤ) : roundHalfEven (z : ℚ) = z := by
  simp only [roundHalfEven, Int.floor_intCast, sub_self]
  norm_num

/-- Counterexample to claim C10 as stated: a body-composition response with a
truthy weight and no muscleMass; weight is converted, but muscleMass stays
`None` instead of being converted from grams to kilograms. -/
theorem C10_counterexample :
    truthy (jget [("weight", JVal.num 70000)] "weight") = true ∧
    jget (fetch_health_data cWeightOnly 0 "t").1 "weight" =
      .num (gramsToKg 70000) ∧
    gramsToKg 70000 = 70 ∧
    jget (fetch_health_data cWeightOnly 0 "t").1 "muscleMass" = .null := by
  refine ⟨rfl, rfl, ?_, rfl⟩
  unfold gramsToKg round1q
  have h1 : (10 : ℚ) * (70000 / 1000) = ((700 : ℤ) : ℚ) := by norm_num
  rw [h1, roundHalfEven_intCast]
  norm_num

/-- Witness for the amended C10: a raising body call leaves weight `None`; a
weight-only response stores the converted weight and leaves muscleMass
`None`. -/
theorem C10_body_composition_witness :
    jget (fetch_health_data cAllExn 0 "t").1 "weight" = .null ∧
    jget (fetch_health_data cWeightOnly 0 "t").1 "weight" =
      .num (gramsToKg 70000) ∧
    jget (fetch_health_data cWeightOnly 0 "t").1 "muscleMass" = .null :=
  ⟨(C10_body_composition cAllExn 0 "t").1 "weight" (by decide) rfl,
   ((C10_body_composition cWeightOnly 0 "t").2 [("weight", JVal.num 70000)]
      70000 rfl rfl (by norm_num) (.inl rfl) (.inl rfl) (.inl rfl)
      (.inl rfl)).1,
   ((C10_body_composition cWeightOnly 0 "t").2 [("weight", JVal.num 70000)]
      70000 rfl rfl (by norm_num) (.inl rfl) (.inl rfl) (.inl rfl)
      (.inl rfl)).2.1 rfl⟩

/-! Scalar preservation. -/

theorem scalarVals_dictSet {d : Record} {v : JVal} (hd : ScalarVals d)
    (hv : isScalar v = true) (k : String) : ScalarVals (dictSet d k v) := by
  intro w hw
  rcases snd_mem_dictSet hw with rfl | hw2
  · exact hv
  · exact hd w hw2

theorem isScalar_pyOr {a b : JVal} (ha : isScalar a = true)
    (hb : isScalar b = true) : isScalar (pyOr a b) = true := by
  unfold pyOr
  split
  · exact ha
  · exact hb

theorem isScalar_pyTimesTwo {v c : JVal} (hv : isScalar v = true)
    (h : pyTimesTwo v = some c) : isScalar c = true := by
  cases v <;> simp_all [pyTimesTwo, toNum, isScalar] <;> simp [← h, isScalar]

theorem isScalar_pyAdd {a b c : JVal} (ha : isScalar a = true)
    (h : pyAdd a b = some c) : isScalar c = true := by
  cases a <;> cases b <;>
    simp_all [pyAdd, toNum, isScalar] <;> simp [← h, isScalar]

theorem isScalar_pyFloorDiv60 {v c : JVal} (h : pyFloorDiv60 v = some c) :
    isScalar c = true := by
  unfold pyFloorDiv60 at h
  cases htn : toNum v with
  | none => rw [htn] at h; exact absurd h (by simp)
  | some q =>
      rw [htn] at h
      rw [← Option.some.inj h]
      rfl

theorem isScalar_pyRound1 {v c : JVal} (h : pyRound1 v = some c) :
    isScalar c = true := by
  unfold pyRound1 at h
  cases htn : toNum v with
  | none => rw [htn] at h; exact absurd h (by simp)
  | some q =>
      rw [htn] at h
      rw [← Option.some.inj h]
      rfl

theorem isScalar_divRound {v c : JVal} (h : divRound v = some c) :
    isScalar c = true := by
  unfold divRound pyDiv1000 at h
  cases htn : toNum v with
  | none => rw [htn] at h; exact absurd h (by simp)
  | some q =>
      rw [htn] at h
      simp only [Option.some_bind] at h
      exact isScalar_pyRound1 h

theorem tryStep_scalar {f : Record → Option Record}
    (hf : ∀ d d2, f d = some d2 → ScalarVals d → ScalarVals d2)
    (st : Record × Bool) (h : ScalarVals st.1) :
    ScalarVals (tryStep f st).1 := by
  obtain ⟨d, b⟩ := st
  cases b
  · exact h
  · simp only [tryStep]
    cases hfd : f d with
    | none => exact h
    | some d2 => exact hf d d2 hfd h

theorem sleepStage_scalar (sf : Record) (src dst : String) :
    ∀ d d2, sleepStage sf src dst d = some d2 → ScalarVals d →
      ScalarVals d2 := by
  intro d d2 h hd
  unfold sleepStage at h
  split at h
  · rcases Option.map_eq_some.mp h with ⟨v, hv, rfl⟩
    exact scalarVals_dictSet hd (isScalar_pyFloorDiv60 hv) _
  · rw [← Option.some.inj h]
    exact hd

theorem sleepAwakeCount_scalar (sf : Record)
    (ha : isScalar (jget sf "awakeCount") = true) :
    ∀ d d2, sleepAwakeCount sf d = some d2 → ScalarVals d → ScalarVals d2 := by
  intro d d2 h hd
  rw [← Option.some.inj h]
  exact scalarVals_dictSet hd ha _

theorem sleepScoreStep_scalar (sf : Record)
    (hss : ∀ ss, jget sf "sleepScores" = .obj ss →
      isScalar (jget ss "overallScore") = true ∧
      ∀ ov, jget ss "overall" = .obj ov →
        isScalar (jget ov "value") = true) :
    ∀ d d2, sleepScoreStep sf d = some d2 → ScalarVals d → ScalarVals d2 := by
  intro d d2 h hd
  unfold sleepScoreStep at h
  split at h
  · cases hsum : jget sf "sleepScores" with
    | obj ss =>
        simp only [hsum] at h
        obtain ⟨ho, hov⟩ := hss ss hsum
        split at h
        · cases hove : jget ss "overall" with
          | obj ov =>
              simp only [hove] at h
              rw [← Option.some.inj h]
              exact scalarVals_dictSet hd (hov ov hove) _
          | null => simp only [hove] at h; exact Option.noConfusion h
          | bool b => simp only [hove] at h; exact Option.noConfusion h
          | num q => simp only [hove] at h; exact Option.noConfusion h
          | str s => simp only [hove] at h; exact Option.noConfusion h
          | arr xs => simp only [hove] at h; exact Option.noConfusion h
        · split at h
          · rw [← Option.some.inj h]
            exact scalarVals_dictSet hd ho _
          · rw [← Option.some.inj h]
            exact hd
    | null => simp only [hsum] at h; rw [← Option.some.inj h]; exact hd
    | bool b => simp only [hsum] at h; rw [← Option.some.inj h]; exact hd
    | num q => simp only [hsum] at h; rw [← Option.some.inj h]; exact hd
    | str s2 => simp only [hsum] at h; rw [← Option.some.inj h]; exact hd
    | arr xs => simp only [hsum] at h; rw [← Option.some.inj h]; exact hd
  · rw [← Option.some.inj h]
    exact hd

theorem bodyWeightStep_scalar (fs : Record) :
    ∀ d d2, bodyWeightStep fs d = some d2 → ScalarVals d → ScalarVals d2 := by
  intro d d2 h hd
  rcases Option.map_eq_some.mp h with ⟨v, hv, rfl⟩
  exact scalarVals_dictSet hd (isScalar_divRound hv) _

theorem bodyRoundStep_scalar (fs : Record) (src dst : String) :
    ∀ d d2, bodyRoundStep fs src dst d = some d2 → ScalarVals d →
      ScalarVals d2 := by
  intro d d2 h hd
  unfold bodyRoundStep at h
  split at h
  · rcases Option.map_eq_some.mp h with ⟨v, hv, rfl⟩
    exact scalarVals_dictSet hd (isScalar_pyRound1 hv) _
  · rw [← Option.some.inj h]
    exact scalarVals_dictSet hd (show isScalar .null = true from rfl) _

theorem bodyDivRoundStep_scalar (fs : Record) (src dst : String) :
    ∀ d d2, bodyDivRoundStep fs src dst d = some d2 → ScalarVals d →
      ScalarVals d2 := by
  intro d d2 h hd
  unfold bodyDivRoundStep at h
  split at h
  · rcases Option.map_eq_some.mp h with ⟨v, hv, rfl⟩
    exact scalarVals_dictSet hd (isScalar_divRound hv) _
  · rw [← Option.some.inj h]
    exact scalarVals_dictSet hd (show isScalar .null = true from rfl) _

theorem bodyVisceralStep_scalar (fs : Record)
    (ha : isScalar (jget fs "visceralFat") = true) :
    ∀ d d2, bodyVisceralStep fs d = some d2 → ScalarVals d →
      ScalarVals d2 := by
  intro d d2 h hd
  rw [← Option.some.inj h]
  exact scalarVals_dictSet hd ha _

theorem statsBlock_scalar (r : ApiResult) (hd : Record)
    (hok : statsScalarOK r) (h : ScalarVals hd) :
    ScalarVals (statsBlock r hd) := by
  cases r with
  | exn => exact h
  | ok v =>
      cases v with
      | obj fs =>
          obtain ⟨s1, s2, s3, s4, s5, s6, s7⟩ := hok fs rfl
          have hmod : isScalar
              (pyOr (jget fs "moderateIntensityMinutes") (.num 0)) = true :=
            isScalar_pyOr s6 rfl
          have hvig : isScalar
              (pyOr (jget fs "vigorousIntensityMinutes") (.num 0)) = true :=
            isScalar_pyOr s7 rfl
          simp only [statsBlock]
          split
          · exact h
          · split
            · exact scalarVals_dictSet (scalarVals_dictSet (scalarVals_dictSet
                (scalarVals_dictSet (scalarVals_dictSet (scalarVals_dictSet
                (scalarVals_dictSet h s1 _) s2 _) s3 _) s4 _) s5 _) hmod _)
                hvig _
            · split
              · exact scalarVals_dictSet (scalarVals_dictSet
                  (scalarVals_dictSet (scalarVals_dictSet (scalarVals_dictSet
                  (scalarVals_dictSet (scalarVals_dictSet h s1 _) s2 _) s3 _)
                  s4 _) s5 _) hmod _) hvig _
              · rename_i v2 hv2 s0 hs0
                refine scalarVals_dictSet (scalarVals_dictSet
                  (scalarVals_dictSet (scalarVals_dictSet (scalarVals_dictSet
                  (scalarVals_dictSet (scalarVals_dictSet (scalarVals_dictSet
                  h s1 _) s2 _) s3 _) s4 _) s5 _) hmod _) hvig _) ?_ _
                exact isScalar_pyAdd hmod hs0
      | null => exact h
      | bool b => exact h
      | num q => exact h
      | str s => exact h
      | arr xs => exact h

theorem hrvBlock_scalar (r : ApiResult) (hd : Record)
    (hok : hrvScalarOK r) (h : ScalarVals hd) :
    ScalarVals (hrvBlock r hd) := by
  cases r with
  | exn => exact h
  | ok v =>
      cases v with
      | obj fs =>
          simp only [hrvBlock]
          split
          · cases hsum : jget fs "hrvSummary" with
            | obj hs =>
                obtain ⟨h1, h2⟩ := hok fs hs rfl hsum
                simp only [hsum]
                exact scalarVals_dictSet h (isScalar_pyOr h1 h2) _
            | null => simp only [hsum]; exact h
            | bool b => simp only [hsum]; exact h
            | num q => simp only [hsum]; exact h
            | str s => simp only [hsum]; exact h
            | arr xs => simp only [hsum]; exact h
          · exact h
      | null => exact h
      | bool b => exact h
      | num q => exact h
      | str s => exact h
      | arr xs => exact h

theorem stressBlock_scalar (r : ApiResult) (hd : Record)
    (hok : stressScalarOK r) (h : ScalarVals hd) :
    ScalarVals (stressBlock r hd) := by
  cases r with
  | exn => exact h
  | ok v =>
      cases v with
      | obj fs =>
          simp only [stressBlock]
          split
          · exact h
          · exact scalarVals_dictSet h (hok fs rfl) _
      | null => exact h
      | bool b => exact h
      | num q => exact h
      | str s => exact h
      | arr xs => exact h

theorem sleepBlock_scalar (r : ApiResult) (hd : Record)
    (hok : sleepScalarOK r) (h : ScalarVals hd) :
    ScalarVals (sleepBlock r hd) := by
  cases r with
  | exn => exact h
  | ok v =>
      cases v with
      | obj fs =>
          simp only [sleepBlock]
          split
          · cases hdto : jget fs "dailySleepDTO" with
            | obj sf =>
                obtain ⟨ha, hss⟩ := hok fs sf rfl hdto
                simp only [hdto, sleepSets]
                refine tryStep_scalar (sleepScoreStep_scalar sf hss) _ ?_
                refine tryStep_scalar (sleepAwakeCount_scalar sf ha) _ ?_
                refine tryStep_scalar (sleepStage_scalar sf _ _) _ ?_
                refine tryStep_scalar (sleepStage_scalar sf _ _) _ ?_
                refine tryStep_scalar (sleepStage_scalar sf _ _) _ ?_
                refine tryStep_scalar (sleepStage_scalar sf _ _) _ ?_
                exact tryStep_scalar (sleepStage_scalar sf _ _) _ h
            | null => simp only [hdto]; exact h
            | bool b => simp only [hdto]; exact h
            | num q => simp only [hdto]; exact h
            | str s => simp only [hdto]; exact h
            | arr xs => simp only [hdto]; exact h
          · exact h
      | null => exact h
      | bool b => exact h
      | num q => exact h
      | str s => exact h
      | arr xs => exact h

theorem respirationBlock_scalar (r : ApiResult) (hd : Record)
    (hok : respirationScalarOK r) (h : ScalarVals hd) :
    ScalarVals (respirationBlock r hd) := by
  cases r with
  | exn => exact h
  | ok v =>
      cases v with
      | obj fs =>
          simp only [respirationBlock]
          split
          · exact h
          · obtain ⟨h1, h2⟩ := hok fs rfl
            exact scalarVals_dictSet h (isScalar_pyOr h1 h2) _
      | null => exact h
      | bool b => exact h
      | num q => exact h
      | str s => exact h
      | arr xs => exact h

theorem bodyBlock_scalar (r : ApiResult) (hd : Record)
    (hok : bodyScalarOK r) (h : ScalarVals hd) :
    ScalarVals (bodyBlock r hd) := by
  cases r with
  | exn => exact h
  | ok v =>
      cases v with
      | obj fs =>
          simp only [bodyBlock]
          split
          · simp only [bodySets]
            refine tryStep_scalar (bodyDivRoundStep_scalar fs _ _) _ ?_
            refine tryStep_scalar (bodyRoundStep_scalar fs _ _) _ ?_
            refine tryStep_scalar (bodyVisceralStep_scalar fs (hok fs rfl)) _ ?_
            refine tryStep_scalar (bodyDivRoundStep_scalar fs _ _) _ ?_
            refine tryStep_scalar (bodyRoundStep_scalar fs _ _) _ ?_
            refine tryStep_scalar (bodyRoundStep_scalar fs _ _) _ ?_
            exact tryStep_scalar (bodyWeightStep_scalar fs) _ h
          · exact h
      | null => exact h
      | bool b => exact h
      | num q => exact h
      | str s => exact h
      | arr xs => exact h

/-! Key-set preservation: no fetch outcome adds or removes a record key. -/

theorem containsKey_iff_mem (d : Record) (k : String) :
    containsKey d k = true ↔ k ∈ d.map Prod.fst := by
  induction d with
  | nil => simp [containsKey]
  | cons p rest ih =>
      obtain ⟨a, b⟩ := p
      simp only [containsKey, List.map_cons, List.mem_cons, Bool.or_eq_true,
        decide_eq_true_eq, ih]
      constructor
      · rintro (h | h)
        · exact .inl h.symm
        · exact .inr h
      · rintro (h | h)
        · exact .inl h.symm
        · exact .inr h

theorem dictSet_keeps {d : Record} (h : d.map Prod.fst = recordKeys)
    {k : String} (hk : k ∈ recordKeys) (v : JVal) :
    (dictSet d k v).map Prod.fst = recordKeys := by
  rw [map_fst_dictSet d k v (by rw [containsKey_iff_mem, h]; exact hk), h]

theorem tryStep_keeps {f : Record → Option Record} {dst : String}
    (hw : WritesTo f dst) (hdst : dst ∈ recordKeys) (st : Record × Bool)
    (h : (st.1).map Prod.fst = recordKeys) :
    ((tryStep f st).1).map Prod.fst = recordKeys := by
  rw [tryStep_keys hw st (by rw [containsKey_iff_mem, h]; exact hdst)]
  exact h

theorem statsBlock_keys (r : ApiResult) (hd : Record)
    (h : hd.map Prod.fst = recordKeys) :
    (statsBlock r hd).map Prod.fst = recordKeys := by
  cases r with
  | exn => exact h
  | ok v =>
      cases v with
      | obj fs =>
          simp only [statsBlock]
          split
          · exact h
          · split
            · exact dictSet_keeps (dictSet_keeps (dictSet_keeps (dictSet_keeps
                (dictSet_keeps (dictSet_keeps (dictSet_keeps h (by decide) _)
                (by decide) _) (by decide) _) (by decide) _) (by decide) _)
                (by decide) _) (by decide) _
            · split
              · exact dictSet_keeps (dictSet_keeps (dictSet_keeps
                  (dictSet_keeps (dictSet_keeps (dictSet_keeps (dictSet_keeps
                  h (by decide) _) (by decide) _) (by decide) _) (by decide) _)
                  (by decide) _) (by decide) _) (by decide) _
              · exact dictSet_keeps (dictSet_keeps (dictSet_keeps
                  (dictSet_keeps (dictSet_keeps (dictSet_keeps (dictSet_keeps
                  (dictSet_keeps h (by decide) _) (by decide) _) (by decide) _)
                  (by decide) _) (by decide) _) (by decide) _) (by decide) _)
                  (by decide) _
      | null => exact h
      | bool b => exact h
      | num q => exact h
      | str s => exact h
      | arr xs => exact h

theorem hrvBlock_keys (r : ApiResult) (hd : Record)
    (h : hd.map Prod.fst = recordKeys) :
    (hrvBlock r hd).map Prod.fst = recordKeys := by
  cases r with
  | exn => exact h
  | ok v =>
      cases v with
      | obj fs =>
          simp only [hrvBlock]
          split
          · split
            · exact dictSet_keeps h (by decide) _
            all_goals exact h
          · exact h
      | null => exact h
      | bool b => exact h
      | num q => exact h
      | str s => exact h
      | arr xs => exact h

theorem stressBlock_keys (r : ApiResult) (hd : Record)
    (h : hd.map Prod.fst = recordKeys) :
    (stressBlock r hd).map Prod.fst = recordKeys := by
  cases r with
  | exn => exact h
  | ok v =>
      cases v with
      | obj fs =>
          simp only [stressBlock]
          split
          · exact h
          · exact dictSet_keeps h (by decide) _
      | null => exact h
      | bool b => exact h
      | num q => exact h
      | str s => exact h
      | arr xs => exact h

theorem sleepBlock_keys (r : ApiResult) (hd : Record)
    (h : hd.map Prod.fst = recordKeys) :
    (sleepBlock r hd).map Prod.fst = recordKeys := by
  cases r with
  | exn => exact h
  | ok v =>
      cases v with
      | obj fs =>
          simp only [sleepBlock]
          split
          · split
            · rename_i sf _
              simp only [sleepSets]
              refine tryStep_keeps (sleepScoreStep_writesTo sf)
                (by decide) _ ?_
              refine tryStep_keeps (sleepAwakeCount_writesTo sf)
                (by decide) _ ?_
              refine tryStep_keeps (sleepStage_writesTo sf _ _)
                (by decide) _ ?_
              refine tryStep_keeps (sleepStage_writesTo sf _ _)
                (by decide) _ ?_
              refine tryStep_keeps (sleepStage_writesTo sf _ _)
                (by decide) _ ?_
              refine tryStep_keeps (sleepStage_writesTo sf _ _)
                (by decide) _ ?_
              exact tryStep_keeps (sleepStage_writesTo sf _ _) (by decide) _ h
            all_goals exact h
          · exact h
      | null => exact h
      | bool b => exact h
      | num q => exact h
      | str s => exact h
      | arr xs => exact h

theorem respirationBlock_keys (r : ApiResult) (hd : Record)
    (h : hd.map Prod.fst = recordKeys) :
    (respirationBlock r hd).map Prod.fst = recordKeys := by
  cases r with
  | exn => exact h
  | ok v =>
      cases v with
      | obj fs =>
          simp only [respirationBlock]
          split
          · exact h
          · exact dictSet_keeps h (by decide) _
      | null => exact h
      | bool b => exact h
      | num q => exact h
      | str s => exact h
      | arr xs => exact h

theorem bodyBlock_keys (r : ApiResult) (hd : Record)
    (h : hd.map Prod.fst = recordKeys) :
    (bodyBlock r hd).map Prod.fst = recordKeys := by
  cases r with
  | exn => exact h
  | ok v =>
      cases v with
      | obj fs =>
          simp only [bodyBlock]
          split
          · simp only [bodySets]
            refine tryStep_keeps (bodyDivRoundStep_writesTo fs _ _)
              (by decide) _ ?_
            refine tryStep_keeps (bodyRoundStep_writesTo fs _ _)
              (by decide) _ ?_
            refine tryStep_keeps (bodyVisceralStep_writesTo fs)
              (by decide) _ ?_
            refine tryStep_keeps (bodyDivRoundStep_writesTo fs _ _)
              (by decide) _ ?_
            refine tryStep_keeps (bodyRoundStep_writesTo fs _ _)
              (by decide) _ ?_
            refine tryStep_keeps (bodyRoundStep_writesTo fs _ _)
              (by decide) _ ?_
            exact tryStep_keeps (bodyWeightStep_writesTo fs) (by decide) _ h
          · exact h
      | null => exact h
      | bool b => exact h
      | num q => exact h
      | str s => exact h
      | arr xs => exact h

set_option maxRecDepth 4096 in
/-- Claim C6 (amended), invariants. Every day record is a flat mapping with
exactly the fixed 28-key set of lines 38-75, in source order; its date key is
the target date formatted as YYYY-MM-DD, its source is "garmin" and its
fetchedAt the fetch timestamp; no fetch outcome adds or removes a key. Its
values are nullable scalars provided the values the script extracts from the
API responses are scalars; an API response carrying a nested structure in an
extracted position is stored verbatim, refuting the unconditional claim (see
the counterexample). -/
theorem C6_record_shape (g : Garmin) (t : ℤ) (now : String) :
    ((fetch_health_data g t now).1).map Prod.fst = recordKeys ∧
    jget (fetch_health_data g t now).1 "date" = .str (get_date_string t) ∧
    jget (fetch_health_data g t now).1 "source" = .str "garmin" ∧
    jget (fetch_health_data g t now).1 "fetchedAt" = .str now ∧
    (statsScalarOK (g.get_stats (get_date_string t)) →
      hrvScalarOK (g.get_hrv_data (get_date_string t)) →
      stressScalarOK (g.get_stress_data (get_date_string t)) →
      sleepScalarOK (g.get_sleep_data (get_date_string t)) →
      respirationScalarOK (g.get_respiration_data (get_date_string t)) →
      bodyScalarOK (g.get_body_composition (get_date_string t)) →
      ScalarVals (fetch_health_data g t now).1) := by
  refine ⟨?_, fetch_date g t now, ?_, ?_, ?_⟩
  · rw [fetch_fst]
    exact bodyBlock_keys _ _ (respirationBlock_keys _ _ (sleepBlock_keys _ _
      (stressBlock_keys _ _ (hrvBlock_keys _ _ (statsBlock_keys _ _ rfl)))))
  · rw [fetch_fst, bodyBlock_frame _ _ (by decide),
      respirationBlock_frame _ _ (by decide), sleepBlock_frame _ _ (by decide),
      stressBlock_frame _ _ (by decide), hrvBlock_frame _ _ (by decide),
      statsBlock_frame _ _ (by decide)]
    rfl
  · rw [fetch_fst, bodyBlock_frame _ _ (by decide),
      respirationBlock_frame _ _ (by decide), sleepBlock_frame _ _ (by decide),
      stressBlock_frame _ _ (by decide), hrvBlock_frame _ _ (by decide),
      statsBlock_frame _ _ (by decide)]
    rfl
  · intro h1 h2 h3 h4 h5 h6
    rw [fetch_fst]
    refine bodyBlock_scalar _ _ h6 (respirationBlock_scalar _ _ h5
      (sleepBlock_scalar _ _ h4 (stressBlock_scalar _ _ h3
      (hrvBlock_scalar _ _ h2 (statsBlock_scalar _ _ h1 ?_)))))
    intro w hw
    simp [initRecord] at hw
    rcases hw with rfl | rfl | rfl | rfl <;> rfl

/-- Counterexample to claim C6 as stated: a stats response whose
restingHeartRate is a nested mapping is stored verbatim, so the record value
is not a nullable scalar. -/
theorem C6_counterexample :
    jget (fetch_health_data cObjRhr 0 "t").1 "rhr" =
      .obj [("x", .num 1)] ∧
    isScalar (jget (fetch_health_data cObjRhr 0 "t").1 "rhr") = false :=
  ⟨rfl, rfl⟩

/-- Witness for the amended C6 at a client whose calls all raise. -/
theorem C6_record_shape_witness :
    ((fetch_health_data cAllExn 0 "t").1).map Prod.fst = recordKeys ∧
    ScalarVals (fetch_health_data cAllExn 0 "t").1 :=
  ⟨(C6_record_shape cAllExn 0 "t").1,
   (C6_record_shape cAllExn 0 "t").2.2.2.2
     (fun fs h => ApiResult.noConfusion h)
     (fun fs hs h => ApiResult.noConfusion h)
     (fun fs h => ApiResult.noConfusion h)
     (fun fs sf h => ApiResult.noConfusion h)
     (fun fs h => ApiResult.noConfusion h)
     (fun fs h => ApiResult.noConfusion h)⟩

end SyncGarmin
